import Mathlib

/-!
# Verification of the `solartime` solar-event calculator

This file is a shallow embedding of `solartime.py` (class `SolarTime`) in Lean 4,
together with theorems settling the frozen claims about the module.

Embedding conventions:
* Python floats are idealized as real numbers (`ℝ`); `math.sin`/`cos`/`tan`/`acos`/`asin`
  are `Real.sin`/`Real.cos`/`Real.tan`/`Real.arccos`/`Real.arcsin`.  `math.acos` raises
  `ValueError` outside `[-1, 1]`; this partiality is modelled with `Except PyExc`.
* `datetime.date` is a `Date` record (year/month/day integers); Python's constructor
  validity rules (`MINYEAR = 1`, `MAXYEAR = 9999`, real calendar days) are `Date.isValid`.
  `date ± timedelta(days=1)` is `Date.succD` / `Date.predD`, returning `none` exactly
  where Python raises `OverflowError` (beyond `date.min` / `date.max`).
* `datetime.datetime(y, m, d, h, mi, s, tzinfo=utc)` is `mkDatetime`, failing with
  `ValueError` exactly when an argument is out of range, as in Python.
* `int(x)` on a float is truncation toward zero: `pytrunc`.
* `_julianday` is arithmetic on dyadic rationals, embedded exactly over `ℚ`
  (only the `timezone=None` default path is used by the module, and only that is embedded).
* Each definition carries the line numbers of the source it embeds.
-/

/-- `datetime.date`: a year/month/day triple (fields as unconstrained integers;
validity is the separate predicate `Date.isValid`, matching the constructor checks
Python performed when the caller built the `date` object). -/
structure Date where
  year : ℤ
  month : ℤ
  day : ℤ
deriving DecidableEq, Repr

/-- Gregorian leap-year rule used by `datetime` (proleptic Gregorian calendar). -/
def isLeap (y : ℤ) : Prop := y % 4 = 0 ∧ (y % 100 ≠ 0 ∨ y % 400 = 0)

instance (y : ℤ) : Decidable (isLeap y) := by unfold isLeap; infer_instance

/-- Number of days in a month of the proleptic Gregorian calendar (as in `datetime`). -/
def daysInMonth (y m : ℤ) : ℤ :=
  if m = 2 then (if isLeap y then 29 else 28)
  else if m = 4 ∨ m = 6 ∨ m = 9 ∨ m = 11 then 30
  else 31

/-- Python `datetime.date` validity: `1 ≤ year ≤ 9999` and a real calendar day. -/
def Date.isValid (d : Date) : Prop :=
  1 ≤ d.year ∧ d.year ≤ 9999 ∧ 1 ≤ d.month ∧ d.month ≤ 12 ∧
    1 ≤ d.day ∧ d.day ≤ daysInMonth d.year d.month

instance (d : Date) : Decidable d.isValid := by unfold Date.isValid; infer_instance

/-- `date + datetime.timedelta(days=1)`: the next calendar day, or `none` where
Python raises `OverflowError` (only past `date.max = 9999-12-31`). -/
def Date.succD (d : Date) : Option Date :=
  if d.year = 9999 ∧ d.month = 12 ∧ d.day = 31 then none
  else if d.day < daysInMonth d.year d.month then some ⟨d.year, d.month, d.day + 1⟩
  else if d.month < 12 then some ⟨d.year, d.month + 1, 1⟩
  else some ⟨d.year + 1, 1, 1⟩

/-- `date - datetime.timedelta(days=1)`: the previous calendar day, or `none` where
Python raises `OverflowError` (only before `date.min = 0001-01-01`). -/
def Date.predD (d : Date) : Option Date :=
  if d.year = 1 ∧ d.month = 1 ∧ d.day = 1 then none
  else if 1 < d.day then some ⟨d.year, d.month, d.day - 1⟩
  else if 1 < d.month then some ⟨d.year, d.month - 1, daysInMonth d.year (d.month - 1)⟩
  else some ⟨d.year - 1, 12, 31⟩

/-- Exceptions the numeric pipeline can raise: `ValueError` (from `math.acos` out of
domain, or from the `datetime.datetime` constructor) and `OverflowError` (from
`date ± timedelta` leaving the representable range). -/
inductive PyExc where
  | valueError : PyExc
  | overflowError : PyExc
deriving DecidableEq, Repr

/-- A `datetime.datetime` value as returned by the module (UTC tzinfo is fixed and
carried implicitly: every result instant is UTC). -/
structure Datetime where
  date : Date
  hour : ℤ
  minute : ℤ
  second : ℤ
deriving DecidableEq, Repr

/-- `datetime.datetime(date.year, date.month, date.day, hour, minute, second, tzinfo=pytz.utc)`:
validates all fields, raising `ValueError` exactly when one is out of range. -/
def mkDatetime (d : Date) (hour minute second : ℤ) : Except PyExc Datetime :=
  if d.isValid ∧ 0 ≤ hour ∧ hour ≤ 23 ∧ 0 ≤ minute ∧ minute ≤ 59 ∧
      0 ≤ second ∧ second ≤ 59
  then .ok ⟨d, hour, minute, second⟩ else .error .valueError

/-- Python `int(x)` on a float: truncation toward zero. -/
noncomputable def pytrunc (x : ℝ) : ℤ := if 0 ≤ x then ⌊x⌋ else ⌈x⌉

/-- `hour = int(timeUTC)` (source lines 173, 372); `T` is `timeUTC` after `timeUTC /= 60.0`. -/
noncomputable def nh0 (T : ℝ) : ℤ := pytrunc T

/-- `minute = int((timeUTC - hour) * 60)` (source lines 174, 373). -/
noncomputable def nm0 (T : ℝ) : ℤ := pytrunc ((T - nh0 T) * 60)

/-- `second = int((((timeUTC - hour) * 60) - minute) * 60)` (source lines 175, 374). -/
noncomputable def ns0 (T : ℝ) : ℤ := pytrunc (((T - nh0 T) * 60 - nm0 T) * 60)

/-- Seconds after the seconds-carry block (source lines 177–182). -/
noncomputable def ns1 (T : ℝ) : ℤ :=
  if ns0 T > 59 then ns0 T - 60 else if ns0 T < 0 then ns0 T + 60 else ns0 T

/-- Minutes after the seconds-carry block (source lines 177–182). -/
noncomputable def nm1 (T : ℝ) : ℤ :=
  if ns0 T > 59 then nm0 T + 1 else if ns0 T < 0 then nm0 T - 1 else nm0 T

/-- Minutes after the minutes-carry block (source lines 184–189). -/
noncomputable def nm2 (T : ℝ) : ℤ :=
  if nm1 T > 59 then nm1 T - 60 else if nm1 T < 0 then nm1 T + 60 else nm1 T

/-- Hours after the minutes-carry block (source lines 184–189). -/
noncomputable def nh1 (T : ℝ) : ℤ :=
  if nm1 T > 59 then nh0 T + 1 else if nm1 T < 0 then nh0 T - 1 else nh0 T

/-- The normalization tail shared verbatim by `solar_noon_utc` (source lines 172–198)
and `_calc_time` (source lines 371–397): minutes-since-midnight `timeUTC` is divided
by 60, truncated into hour/minute/second with carry blocks, the hour is rolled over
a day boundary, and the `datetime.datetime` constructor is invoked. -/
noncomputable def normalizeTime (date : Date) (timeUTC : ℝ) : Except PyExc Datetime :=
  let T := timeUTC / 60
  if nh1 T > 23 then
    match date.succD with
    | none => .error .overflowError
    | some d2 => mkDatetime d2 (nh1 T - 24) (nm2 T) (ns1 T)
  else if nh1 T < 0 then
    match date.predD with
    | none => .error .overflowError
    | some d2 => mkDatetime d2 (nh1 T + 24) (nm2 T) (ns1 T)
  else mkDatetime date (nh1 T) (nm2 T) (ns1 T)

/-- `SolarTime._julianday` (source lines 236–257), `timezone=None` path, exact over `ℚ`.
`floor` is `math.floor`; the Gregorian correction `B` is added exactly when the
uncorrected value exceeds `2299160.4999999`. -/
def julianday (date : Date) : ℚ :=
  let y : ℤ := if date.month ≤ 2 then date.year - 1 else date.year
  let m : ℤ := if date.month ≤ 2 then date.month + 12 else date.month
  let A : ℤ := ⌊(y : ℚ) / 100⌋
  let B : ℤ := 2 - A + ⌊(A : ℚ) / 4⌋
  let jd : ℚ := ⌊(365.25 : ℚ) * ((y : ℚ) + 4716)⌋ + ⌊(30.6001 : ℚ) * ((m : ℚ) + 1)⌋
    + (date.day : ℚ) - 1524.5
  if jd > 2299160.4999999 then jd + (B : ℚ) else jd

/-- The Julian-day formula as the specification states it: the standard astronomical
formula (January/February as months 13/14 of the previous year), with the Gregorian
correction term `2 - ⌊y/100⌋ + ⌊⌊y/100⌋/4⌋` applied exactly for dates on or after the
Gregorian adoption threshold, the adoption threshold being the point `2299160.5` of the
continuous day count (the first instant of 1582-10-15, the first Gregorian day). -/
def juliandaySpec (date : Date) : ℚ :=
  let y : ℤ := if date.month ≤ 2 then date.year - 1 else date.year
  let m : ℤ := if date.month ≤ 2 then date.month + 12 else date.month
  let base : ℚ := ⌊(365.25 : ℚ) * ((y : ℚ) + 4716)⌋ + ⌊(30.6001 : ℚ) * ((m : ℚ) + 1)⌋
    + (date.day : ℚ) - 1524.5
  let corr : ℚ := 2 - ⌊(y : ℚ) / 100⌋ + ⌊(⌊(y : ℚ) / 100⌋ : ℚ) / 4⌋
  if 2299160.5 ≤ base then base + corr else base

noncomputable section

open Real

/-- `math.radians`: degrees to radians. -/
def radians (x : ℝ) : ℝ := x * π / 180

/-- `math.degrees`: radians to degrees. -/
def degrees (x : ℝ) : ℝ := x * 180 / π

/-- `SolarTime._jday_to_jcentury` (source lines 259–260). -/
def jday_to_jcentury (jd : ℝ) : ℝ := (jd - 2451545.0) / 36525.0

/-- `SolarTime._jcentury_to_jday` (source lines 262–263). -/
def jcentury_to_jday (jc : ℝ) : ℝ := jc * 36525.0 + 2451545.0

/-- `SolarTime._mean_obliquity_of_ecliptic` (source lines 265–267). -/
def mean_obliquity_of_ecliptic (jc : ℝ) : ℝ :=
  let seconds := 21.448 - jc * (46.815 + jc * (0.00059 - jc * 0.001813))
  23.0 + (26.0 + seconds / 60.0) / 60.0

/-- `SolarTime._obliquity_correction` (source lines 269–272). -/
def obliquity_correction (jc : ℝ) : ℝ :=
  let e0 := mean_obliquity_of_ecliptic jc
  let omega := 125.04 - 1934.136 * jc
  e0 + 0.00256 * cos (radians omega)

/-- `SolarTime._geom_mean_long_sun` (source lines 274–276); `%` is Python `fmod`
toward the sign of 360, i.e. `Int.fract`-style reduction of the quotient by 360. -/
def geom_mean_long_sun (jc : ℝ) : ℝ :=
  let l0 := 280.46646 + jc * (36000.76983 + 0.0003032 * jc)
  l0 - 360.0 * ⌊l0 / 360.0⌋

/-- `SolarTime._eccentrilocation_earth_orbit` (source lines 278–279). -/
def eccentrilocation_earth_orbit (jc : ℝ) : ℝ :=
  0.016708634 - jc * (0.000042037 + 0.0000001267 * jc)

/-- `SolarTime._geom_mean_anomaly_sun` (source lines 281–282). -/
def geom_mean_anomaly_sun (jc : ℝ) : ℝ :=
  357.52911 + jc * (35999.05029 - 0.0001537 * jc)

/-- `SolarTime._eq_of_time` (source lines 284–300), in minutes. -/
def eq_of_time (jc : ℝ) : ℝ :=
  let epsilon := obliquity_correction jc
  let l0 := geom_mean_long_sun jc
  let e := eccentrilocation_earth_orbit jc
  let m := geom_mean_anomaly_sun jc
  let y := tan (radians epsilon / 2.0) * tan (radians epsilon / 2.0)
  let sin2l0 := sin (2.0 * radians l0)
  let sinm := sin (radians m)
  let cos2l0 := cos (2.0 * radians l0)
  let sin4l0 := sin (4.0 * radians l0)
  let sin2m := sin (2.0 * radians m)
  let Etime := y * sin2l0 - 2.0 * e * sinm + 4.0 * e * y * sinm * cos2l0
    - 0.5 * y * y * sin4l0 - 1.25 * e * e * sin2m
  degrees Etime * 4.0

/-- `SolarTime._sun_eq_of_center` (source lines 302–311). -/
def sun_eq_of_center (jc : ℝ) : ℝ :=
  let m := geom_mean_anomaly_sun jc
  let mrad := radians m
  let sinm := sin mrad
  let sin2m := sin (mrad + mrad)
  let sin3m := sin (mrad + mrad + mrad)
  sinm * (1.914602 - jc * (0.004817 + 0.000014 * jc))
    + sin2m * (0.019993 - 0.000101 * jc) + sin3m * 0.000289

/-- `SolarTime._sun_true_long` (source lines 313–316). -/
def sun_true_long (jc : ℝ) : ℝ :=
  geom_mean_long_sun jc + sun_eq_of_center jc

/-- `SolarTime._sun_apparent_long` (source lines 318–322). -/
def sun_apparent_long (jc : ℝ) : ℝ :=
  let O := sun_true_long jc
  let omega := 125.04 - 1934.136 * jc
  O - 0.00569 - 0.00478 * sin (radians omega)

/-- `SolarTime._sun_declination` (source lines 324–329), in degrees. -/
def sun_declination (jc : ℝ) : ℝ :=
  let e := obliquity_correction jc
  let lambd := sun_apparent_long jc
  let sint := sin (radians e) * sin (radians lambd)
  degrees (arcsin sint)

/-- The argument passed to `acos` inside `SolarTime._hour_angle` (source line 335). -/
def haArg (latitude solar_dec solar_depression : ℝ) : ℝ :=
  let latRad := radians latitude
  let sdRad := radians solar_dec
  cos (radians (90 + solar_depression)) / (cos latRad * cos sdRad)
    - tan latRad * tan sdRad

/-- `SolarTime._hour_angle` (source lines 331–336): `math.acos` raises `ValueError`
exactly when its argument falls outside `[-1, 1]`; inside the domain it is `arccos`. -/
def hour_angle (latitude solar_dec solar_depression : ℝ) : Except PyExc ℝ :=
  if -1 ≤ haArg latitude solar_dec solar_depression ∧
      haArg latitude solar_dec solar_depression ≤ 1
  then .ok (arccos (haArg latitude solar_dec solar_depression))
  else .error .valueError

/-- The latitude clamp at the head of `_calc_time` (source lines 341–345). -/
def clampLat (latitude : ℝ) : ℝ :=
  if latitude > 89.8 then 89.8 else if latitude < -89.8 then -89.8 else latitude

/-- `SolarTime._calc_time` (source lines 338–397). -/
def calc_time (date : Date) (latitude longitude depression : ℝ) :
    Except PyExc Datetime :=
  let lat1 := clampLat latitude
  let t := jday_to_jcentury ((julianday date : ℚ) : ℝ)
  let eqtime := eq_of_time t
  let solarDec := sun_declination t
  -- source line 351: the first pass always requests depression 0.833
  match hour_angle lat1 solarDec 0.833 with
  | .error e => .error e
  | .ok ha =>
    let hourangle := -ha
    let delta := -longitude - degrees hourangle
    let timeDiff := 4.0 * delta
    let timeUTC := 720.0 + timeDiff - eqtime
    let newt := jday_to_jcentury (jcentury_to_jday t + timeUTC / 1440.0)
    let eqtime2 := eq_of_time newt
    let solarDec2 := sun_declination newt
    -- source lines 361–365: negative depression is replaced by its absolute value
    -- and the resulting hour angle negated
    match hour_angle lat1 solarDec2 (if depression < 0 then -depression else depression) with
    | .error e => .error e
    | .ok ha2 =>
      let hourangle2 := if depression < 0 then -ha2 else ha2
      let delta2 := -longitude - degrees hourangle2
      let timeUTC2 := 720.0 + 4.0 * delta2 - eqtime2
      normalizeTime date timeUTC2

/-- The `SolarTime` calculator state: the single attribute `self._depression`. -/
structure SolarTime where
  depression : ℝ

/-- The error kinds of the configuration setter: an unrecognized depression name
(the spec's `InvalidConfiguration`; the code raises `KeyError` with an explanatory
message). -/
inductive ConfigError where
  | invalidConfiguration : ConfigError
deriving DecidableEq, Repr

/-- The preset-name table `{'civil': 6, 'nautical': 12, 'astronomical': 18}`
(source lines 85–88). -/
def depressionPresets (s : String) : Option ℝ :=
  if s = "civil" then some 6
  else if s = "nautical" then some 12
  else if s = "astronomical" then some 18
  else none

/-- The `solar_depression` property setter (source lines 81–92): a string is looked
up in the preset table (`KeyError` → `InvalidConfiguration` when absent); a numeric
value is stored as-is after `float()` conversion (the identity on `ℝ`). -/
def set_solar_depression (_st : SolarTime) (v : String ⊕ ℝ) :
    Except ConfigError SolarTime :=
  match v with
  | .inl s =>
    match depressionPresets s with
    | some d => .ok ⟨d⟩
    | none => .error .invalidConfiguration
  | .inr x => .ok ⟨x⟩

/-- `SolarTime.__init__` (source lines 53–61): `self._depression = 6`, then the
setter is applied to the constructor argument (default `6`). -/
def SolarTime.init (v : String ⊕ ℝ) : Except ConfigError SolarTime :=
  set_solar_depression ⟨6⟩ v

/-- The message of every `SolarError` raised by the four event operations. -/
def solarErrorMsg : String :=
  "Sun remains below the horizon on this day, at this location."

/-- `SolarTime.dawn_utc` (source lines 116–132): `_calc_time` with the configured
depression; every exception is replaced by `SolarError(solarErrorMsg)`. -/
def dawn_utc (st : SolarTime) (date : Date) (latitude longitude : ℝ) :
    Except String Datetime :=
  match calc_time date latitude longitude st.depression with
  | .ok v => .ok v
  | .error _ => .error solarErrorMsg

/-- `SolarTime.sunrise_utc` (source lines 134–150): `_calc_time` with depression
`0.833`; every exception is replaced by `SolarError(solarErrorMsg)`. -/
def sunrise_utc (_st : SolarTime) (date : Date) (latitude longitude : ℝ) :
    Except String Datetime :=
  match calc_time date latitude longitude 0.833 with
  | .ok v => .ok v
  | .error _ => .error solarErrorMsg

/-- `SolarTime.solar_noon_utc` (source lines 152–198): no `try`, so any `PyExc`
propagates to the caller unwrapped. -/
def solar_noon_utc (_st : SolarTime) (date : Date) (longitude : ℝ) :
    Except PyExc Datetime :=
  let jd := ((julianday date : ℚ) : ℝ)
  let newt := jday_to_jcentury (jd + 0.5 + -longitude / 360.0)
  let eqtime := eq_of_time newt
  normalizeTime date (720.0 + (-longitude * 4.0) - eqtime)

/-- `SolarTime.sunset_utc` (source lines 200–216): `_calc_time` with depression
`-0.833`; every exception is replaced by `SolarError(solarErrorMsg)`. -/
def sunset_utc (_st : SolarTime) (date : Date) (latitude longitude : ℝ) :
    Except String Datetime :=
  match calc_time date latitude longitude (-0.833) with
  | .ok v => .ok v
  | .error _ => .error solarErrorMsg

/-- `SolarTime.dusk_utc` (source lines 218–234): `_calc_time` with the negated
configured depression; every exception is replaced by `SolarError(solarErrorMsg)`. -/
def dusk_utc (st : SolarTime) (date : Date) (latitude longitude : ℝ) :
    Except String Datetime :=
  match calc_time date latitude longitude (-st.depression) with
  | .ok v => .ok v
  | .error _ => .error solarErrorMsg

/-- The dictionary returned by `SolarTime.sun_utc` (source lines 94–114). -/
structure SunSchedule where
  dawn : Except String Datetime
  sunrise : Except String Datetime
  noon : Except PyExc Datetime
  sunset : Except String Datetime
  dusk : Except String Datetime

/-- `SolarTime.sun_utc` (source lines 94–114). -/
def sun_utc (st : SolarTime) (date : Date) (latitude longitude : ℝ) : SunSchedule :=
  { dawn := dawn_utc st date latitude longitude
    sunrise := sunrise_utc st date latitude longitude
    noon := solar_noon_utc st date longitude
    sunset := sunset_utc st date latitude longitude
    dusk := dusk_utc st date latitude longitude }

end

noncomputable section

open Real

/-- The Julian century at which `_calc_time` evaluates its first pass
(source lines 339, 347). -/
def calcT (date : Date) : ℝ := jday_to_jcentury ((julianday date : ℚ) : ℝ)

/-- The argument of the first-pass `acos` in `_calc_time` (source line 351):
the clamped latitude, the declination at local solar noon, and the fixed
depression `0.833`. -/
def pass1arg (date : Date) (latitude : ℝ) : ℝ :=
  haArg (clampLat latitude) (sun_declination (calcT date)) 0.833

/-- The first-pass approximate UTC time-of-day, in minutes (source lines 351–355). -/
def timeUTC1v (date : Date) (latitude longitude : ℝ) : ℝ :=
  720.0 + 4.0 * (-longitude - degrees (-arccos (pass1arg date latitude)))
    - eq_of_time (calcT date)

/-- The refined Julian century of the second pass (source line 357). -/
def newtF (date : Date) (latitude longitude : ℝ) : ℝ :=
  jday_to_jcentury (jcentury_to_jday (calcT date) + timeUTC1v date latitude longitude / 1440.0)

/-- The argument of the second-pass `acos` in `_calc_time` (source lines 361–365):
the clamped latitude, the declination at the refined century, and the absolute
value of the operation's depression. -/
def pass2arg (date : Date) (latitude longitude depression : ℝ) : ℝ :=
  haArg (clampLat latitude) (sun_declination (newtF date latitude longitude))
    (if depression < 0 then -depression else depression)

/-- The final UTC time-of-day of `_calc_time`, in minutes (source lines 361–369). -/
def timeUTC2v (date : Date) (latitude longitude depression : ℝ) : ℝ :=
  720.0 + 4.0 * (-longitude -
      degrees (if depression < 0 then -arccos (pass2arg date latitude longitude depression)
        else arccos (pass2arg date latitude longitude depression)))
    - eq_of_time (newtF date latitude longitude)

/-- Modelled from the spec wording of the two-pass refinement (§4.3 steps 5–6),
amended as claim C2 requires: the FIRST pass solves the hour-angle equation
`cos HA = cos(90° + depression)/(cos lat · cos dec) - tan lat · tan dec` with the
fixed depression `0.833` at local solar noon, and only the SECOND pass solves it
with the operation's own depression (its absolute value; a negative depression
selects the post-noon root), at the refined Julian century.  A domain failure of
either `acos` aborts with `ValueError`. -/
def calcTimeSpecC2 (date : Date) (latitude longitude depression : ℝ) :
    Except PyExc Datetime :=
  let lat0 := clampLat latitude
  let t := jday_to_jcentury ((julianday date : ℚ) : ℝ)
  -- first pass: the hour-angle equation cos HA = haArg, at the FIXED depression
  -- 0.833, with declination and equation of time at local solar noon
  let rhs1 := haArg lat0 (sun_declination t) 0.833
  if -1 ≤ rhs1 ∧ rhs1 ≤ 1 then
    let approx := 720.0 - 4.0 * longitude + 4.0 * degrees (arccos rhs1) - eq_of_time t
    let newt := jday_to_jcentury (jcentury_to_jday t + approx / 1440.0)
    -- second pass: the same equation with the operation's own depression (its
    -- absolute value; a negative depression selects the post-noon root), at the
    -- refined Julian century
    let dep2 := if depression < 0 then -depression else depression
    let rhs2 := haArg lat0 (sun_declination newt) dep2
    if -1 ≤ rhs2 ∧ rhs2 ≤ 1 then
      let ha2 := if depression < 0 then -arccos rhs2 else arccos rhs2
      normalizeTime date (720.0 - 4.0 * longitude - 4.0 * degrees ha2 - eq_of_time newt)
    else .error .valueError
  else .error .valueError

/-- The fractional solar-noon time in minutes computed by `solar_noon_utc`
(source lines 165–170), before normalization. -/
def noonTimeUTC (date : Date) (longitude : ℝ) : ℝ :=
  720.0 + (-longitude * 4.0) -
    eq_of_time (jday_to_jcentury (((julianday date : ℚ) : ℝ) + 0.5 + -longitude / 360.0))

end

/-! ## Properties of truncation and the hour/minute/second normalization -/

theorem pytrunc_of_nonneg {x : ℝ} (h : 0 ≤ x) : pytrunc x = ⌊x⌋ := by
  simp [pytrunc, h]

theorem pytrunc_of_nonpos {x : ℝ} (h : x ≤ 0) : pytrunc x = ⌈x⌉ := by
  rcases eq_or_lt_of_le h with h0 | h0
  · simp [pytrunc, h0]
  · simp [pytrunc, not_le.mpr h0]

theorem pytrunc_gt (x : ℝ) : x - 1 < (pytrunc x : ℝ) := by
  unfold pytrunc
  split
  · have := Int.sub_one_lt_floor x
    linarith
  · have := Int.le_ceil x
    linarith

theorem pytrunc_lt (x : ℝ) : (pytrunc x : ℝ) < x + 1 := by
  unfold pytrunc
  split
  · have := Int.floor_le x
    linarith
  · have := Int.ceil_lt_add_one x
    linarith

/-- The carry/borrow normalization, characterized: the seconds and minutes that come
out of the carry blocks lie in `[0, 59]`, and the total count of whole seconds equals
the truncation toward zero of `3600 · T` — i.e. the pipeline truncates (never rounds)
the fractional time to whole seconds. -/
theorem hms_spec (T : ℝ) :
    0 ≤ ns1 T ∧ ns1 T ≤ 59 ∧ 0 ≤ nm2 T ∧ nm2 T ≤ 59 ∧
      3600 * nh1 T + 60 * nm2 T + ns1 T = pytrunc (3600 * T) := by
  rcases le_or_lt 0 T with hT | hT
  · -- `T ≥ 0`: each stage is a floor, and no carry block fires.
    have h0 : nh0 T = ⌊T⌋ := pytrunc_of_nonneg hT
    set u : ℝ := Int.fract T with hu
    have hTu : T = (⌊T⌋ : ℝ) + u := by rw [hu]; unfold Int.fract; ring
    have hu0 : 0 ≤ u := Int.fract_nonneg T
    have hu1 : u < 1 := Int.fract_lt_one T
    have e1 : (T - (nh0 T : ℝ)) * 60 = u * 60 := by
      rw [h0, hu]; unfold Int.fract; ring
    have hm : nm0 T = ⌊u * 60⌋ := by
      rw [nm0, e1]; exact pytrunc_of_nonneg (by nlinarith)
    set v : ℝ := Int.fract (u * 60) with hv
    have huv : u * 60 = (⌊u * 60⌋ : ℝ) + v := by rw [hv]; unfold Int.fract; ring
    have hv0 : 0 ≤ v := Int.fract_nonneg _
    have hv1 : v < 1 := Int.fract_lt_one _
    have e2 : ((T - (nh0 T : ℝ)) * 60 - (nm0 T : ℝ)) * 60 = v * 60 := by
      rw [e1, hm, hv]; unfold Int.fract; ring
    have hs : ns0 T = ⌊v * 60⌋ := by
      rw [ns0, e2]; exact pytrunc_of_nonneg (by nlinarith)
    have hmlo : 0 ≤ nm0 T := by rw [hm]; exact Int.floor_nonneg.mpr (by nlinarith)
    have hmhi : nm0 T ≤ 59 := by
      rw [hm]; exact Int.lt_add_one_iff.mp (Int.floor_lt.mpr (by push_cast; nlinarith))
    have hslo : 0 ≤ ns0 T := by rw [hs]; exact Int.floor_nonneg.mpr (by nlinarith)
    have hshi : ns0 T ≤ 59 := by
      rw [hs]; exact Int.lt_add_one_iff.mp (Int.floor_lt.mpr (by push_cast; nlinarith))
    have es1 : ns1 T = ns0 T := by
      rw [ns1, if_neg (by omega), if_neg (by omega)]
    have em1 : nm1 T = nm0 T := by
      rw [nm1, if_neg (by omega), if_neg (by omega)]
    have em2 : nm2 T = nm0 T := by
      rw [nm2, em1, if_neg (by omega), if_neg (by omega)]
    have eh1 : nh1 T = nh0 T := by
      rw [nh1, em1, if_neg (by omega), if_neg (by omega)]
    refine ⟨by omega, by omega, by omega, by omega, ?_⟩
    rw [es1, em2, eh1, hs, hm, h0, pytrunc_of_nonneg (by nlinarith)]
    have e3 : 3600 * T = ((3600 * ⌊T⌋ + 60 * ⌊u * 60⌋ : ℤ) : ℝ) + v * 60 := by
      push_cast; nlinarith [hTu, huv]
    rw [e3, Int.floor_int_add]
  · -- `T < 0`: each stage is a ceiling; the borrow blocks renormalize.
    have hT' : T ≤ 0 := hT.le
    have h0 : nh0 T = ⌈T⌉ := pytrunc_of_nonpos hT'
    set u : ℝ := T - (⌈T⌉ : ℝ) with hu
    have hu0 : u ≤ 0 := by have := Int.le_ceil T; rw [hu]; linarith
    have hu1 : -1 < u := by have := Int.ceil_lt_add_one T; rw [hu]; linarith
    have e1 : (T - (nh0 T : ℝ)) * 60 = u * 60 := by rw [h0, hu]
    have hm : nm0 T = ⌈u * 60⌉ := by
      rw [nm0, e1]; exact pytrunc_of_nonpos (by nlinarith)
    set v : ℝ := u * 60 - (⌈u * 60⌉ : ℝ) with hv
    have hv0 : v ≤ 0 := by have := Int.le_ceil (u * 60); rw [hv]; linarith
    have hv1 : -1 < v := by have := Int.ceil_lt_add_one (u * 60); rw [hv]; linarith
    have e2 : ((T - (nh0 T : ℝ)) * 60 - (nm0 T : ℝ)) * 60 = v * 60 := by
      rw [e1, hm, hv]
    have hs : ns0 T = ⌈v * 60⌉ := by
      rw [ns0, e2]; exact pytrunc_of_nonpos (by nlinarith)
    have hmlo : -59 ≤ nm0 T := by
      rw [hm]
      have : (-60 : ℝ) < u * 60 := by nlinarith
      have := Int.lt_ceil.mpr (show ((-60 : ℤ) : ℝ) < u * 60 by push_cast; linarith)
      omega
    have hmhi : nm0 T ≤ 0 := by
      rw [hm]; exact Int.ceil_le.mpr (by push_cast; nlinarith)
    have hslo : -59 ≤ ns0 T := by
      rw [hs]
      have := Int.lt_ceil.mpr (show ((-60 : ℤ) : ℝ) < v * 60 by push_cast; nlinarith)
      omega
    have hshi : ns0 T ≤ 0 := by
      rw [hs]; exact Int.ceil_le.mpr (by push_cast; nlinarith)
    -- the exact total before the carries
    have etot : (3600 : ℤ) * ⌈T⌉ + 60 * nm0 T + ns0 T = pytrunc (3600 * T) := by
      rw [pytrunc_of_nonpos (by nlinarith), hs, hm]
      have e3 : 3600 * T = v * 60 + ((3600 * ⌈T⌉ + 60 * ⌈u * 60⌉ : ℤ) : ℝ) := by
        push_cast; rw [hv, hu]; ring
      rw [e3, Int.ceil_add_int]
      ring
    rcases lt_or_eq_of_le hshi with hsneg | hszero
    · -- borrow from the seconds, then necessarily from the minutes
      have es1 : ns1 T = ns0 T + 60 := by
        rw [ns1, if_neg (by omega), if_pos (by omega)]
      have em1 : nm1 T = nm0 T - 1 := by
        rw [nm1, if_neg (by omega), if_pos (by omega)]
      have em2 : nm2 T = nm0 T - 1 + 60 := by
        rw [nm2, em1, if_neg (by omega), if_pos (by omega)]
      have eh1 : nh1 T = nh0 T - 1 := by
        rw [nh1, em1, if_neg (by omega), if_pos (by omega)]
      refine ⟨by omega, by omega, by omega, by omega, ?_⟩
      rw [es1, em2, eh1, h0, ← etot]; ring
    · -- seconds came out exact
      have es1 : ns1 T = 0 := by
        rw [ns1, if_neg (by omega), if_neg (by omega)]; omega
      have em1 : nm1 T = nm0 T := by
        rw [nm1, if_neg (by omega), if_neg (by omega)]
      rcases lt_or_eq_of_le hmhi with hmneg | hmzero
      · have em2 : nm2 T = nm0 T + 60 := by
          rw [nm2, em1, if_neg (by omega), if_pos (by omega)]
        have eh1 : nh1 T = nh0 T - 1 := by
          rw [nh1, em1, if_neg (by omega), if_pos (by omega)]
        refine ⟨by omega, by omega, by omega, by omega, ?_⟩
        rw [es1, em2, eh1, h0, ← etot]; omega
      · have em2 : nm2 T = nm0 T := by
          rw [nm2, em1, if_neg (by omega), if_neg (by omega)]
        have eh1 : nh1 T = nh0 T := by
          rw [nh1, em1, if_neg (by omega), if_neg (by omega)]
        refine ⟨by omega, by omega, by omega, by omega, ?_⟩
        rw [es1, em2, eh1, h0, ← etot]; omega

/-- The post-carry hour stays within one unit of `T` on either side. -/
theorem nh1_window (T : ℝ) : T - 2 < (nh1 T : ℝ) ∧ (nh1 T : ℝ) < T + 1 := by
  obtain ⟨h1, h2, h3, h4, h5⟩ := hms_spec T
  have hg := pytrunc_gt (3600 * T)
  have hl := pytrunc_lt (3600 * T)
  have e : (pytrunc (3600 * T) : ℝ) = 3600 * (nh1 T : ℝ) + 60 * (nm2 T : ℝ) + (ns1 T : ℝ) := by
    exact_mod_cast congrArg (fun z : ℤ => (z : ℝ)) h5.symm
  have b1 : (0 : ℝ) ≤ 60 * (nm2 T : ℝ) + (ns1 T : ℝ) := by
    have : (0 : ℤ) ≤ 60 * nm2 T + ns1 T := by omega
    exact_mod_cast this
  have b2 : 60 * (nm2 T : ℝ) + (ns1 T : ℝ) ≤ 3599 := by
    have : (60 : ℤ) * nm2 T + ns1 T ≤ 3599 := by omega
    exact_mod_cast this
  constructor <;> nlinarith

theorem hour_angle_ok {L D dep : ℝ} (h : -1 ≤ haArg L D dep ∧ haArg L D dep ≤ 1) :
    hour_angle L D dep = .ok (Real.arccos (haArg L D dep)) := by
  rw [hour_angle, if_pos h]

theorem hour_angle_err {L D dep : ℝ} (h : ¬(-1 ≤ haArg L D dep ∧ haArg L D dep ≤ 1)) :
    hour_angle L D dep = .error .valueError := by
  rw [hour_angle, if_neg h]

/-- `_calc_time`, re-expressed through the named intermediate values: it fails with
`ValueError` exactly when one of the two `acos` arguments leaves `[-1, 1]`, and
otherwise hands the final fractional time to the normalization tail. -/
theorem calc_time_eq (d : Date) (lat lon dep : ℝ) :
    calc_time d lat lon dep =
      if -1 ≤ pass1arg d lat ∧ pass1arg d lat ≤ 1 then
        if -1 ≤ pass2arg d lat lon dep ∧ pass2arg d lat lon dep ≤ 1 then
          normalizeTime d (timeUTC2v d lat lon dep)
        else .error .valueError
      else .error .valueError := by
  by_cases h1 : -1 ≤ pass1arg d lat ∧ pass1arg d lat ≤ 1
  · have h1' := h1
    simp only [pass1arg, calcT] at h1'
    by_cases h2 : -1 ≤ pass2arg d lat lon dep ∧ pass2arg d lat lon dep ≤ 1
    · have h2' := h2
      simp only [pass2arg, newtF, timeUTC1v, pass1arg, calcT] at h2'
      rw [if_pos h1, if_pos h2]
      simp only [calc_time]
      rw [hour_angle_ok h1']
      simp only []
      rw [hour_angle_ok h2']
      simp only [timeUTC2v, pass2arg, newtF, timeUTC1v, pass1arg, calcT]
    · have h2' := h2
      simp only [pass2arg, newtF, timeUTC1v, pass1arg, calcT] at h2'
      rw [if_pos h1, if_neg h2]
      simp only [calc_time]
      rw [hour_angle_ok h1']
      simp only []
      rw [hour_angle_err h2']
  · have h1' := h1
    simp only [pass1arg, calcT] at h1'
    rw [if_neg h1]
    simp only [calc_time]
    rw [hour_angle_err h1']

/-! ## Latitude clamping -/

theorem clampLat_of_gt {lat : ℝ} (h : 89.8 < lat) : clampLat lat = 89.8 := by
  rw [clampLat, if_pos h]

theorem clampLat_of_lt {lat : ℝ} (h : lat < -89.8) : clampLat lat = -89.8 := by
  rw [clampLat, if_neg (by simp only [gt_iff_lt, not_lt]; linarith), if_pos h]

theorem clampLat_high : clampLat 89.8 = 89.8 := by norm_num [clampLat]

theorem clampLat_low : clampLat (-89.8) = -89.8 := by norm_num [clampLat]

theorem clampLat_id {lat : ℝ} (h1 : -89.8 ≤ lat) (h2 : lat ≤ 89.8) : clampLat lat = lat := by
  rw [clampLat, if_neg (by simp only [gt_iff_lt, not_lt]; linarith),
    if_neg (by simp only [not_lt]; linarith)]

/-- `_calc_time` depends on the latitude argument only through the clamp. -/
theorem calc_time_congr_clamp {a b : ℝ} (h : clampLat a = clampLat b)
    (d : Date) (lon dep : ℝ) : calc_time d a lon dep = calc_time d b lon dep := by
  simp only [calc_time, h]

theorem dawn_utc_congr_clamp {a b : ℝ} (h : clampLat a = clampLat b)
    (s : SolarTime) (d : Date) (lon : ℝ) : dawn_utc s d a lon = dawn_utc s d b lon := by
  simp only [dawn_utc, calc_time_congr_clamp h]

theorem sunrise_utc_congr_clamp {a b : ℝ} (h : clampLat a = clampLat b)
    (s : SolarTime) (d : Date) (lon : ℝ) : sunrise_utc s d a lon = sunrise_utc s d b lon := by
  simp only [sunrise_utc, calc_time_congr_clamp h]

theorem sunset_utc_congr_clamp {a b : ℝ} (h : clampLat a = clampLat b)
    (s : SolarTime) (d : Date) (lon : ℝ) : sunset_utc s d a lon = sunset_utc s d b lon := by
  simp only [sunset_utc, calc_time_congr_clamp h]

theorem dusk_utc_congr_clamp {a b : ℝ} (h : clampLat a = clampLat b)
    (s : SolarTime) (d : Date) (lon : ℝ) : dusk_utc s d a lon = dusk_utc s d b lon := by
  simp only [dusk_utc, calc_time_congr_clamp h]

/-! ## Claim C4: solar noon is independent of latitude and of the depression -/

/-- C4 (confirmed).  `solar_noon_utc` is independent of the calculator's configured
depression: two calculator instances with any two depression values return identical
solar-noon instants; and since latitude is not an input to the operation, the `noon`
entry of the full `sun_utc` schedule does not vary with the latitude passed to it. -/
theorem claim_C4 :
    (∀ (s1 s2 : SolarTime) (d : Date) (lon : ℝ),
        solar_noon_utc s1 d lon = solar_noon_utc s2 d lon) ∧
    (∀ (s : SolarTime) (d : Date) (lat1 lat2 lon : ℝ),
        (sun_utc s d lat1 lon).noon = (sun_utc s d lat2 lon).noon) :=
  ⟨fun _ _ _ _ => rfl, fun _ _ _ _ _ => rfl⟩

/-! ## Claim C9: every failure of the four event operations is the one SolarError -/

/-- C9 (confirmed).  Each of `dawn_utc`, `sunrise_utc`, `sunset_utc`, `dusk_utc`
either returns an instant or fails with the single `SolarError` message — the bare
`except:` converts every internal exception, whatever its cause, into
`SolarError(solarErrorMsg)`; no other exception escapes. -/
theorem claim_C9 (s : SolarTime) (d : Date) (lat lon : ℝ) :
    ((∃ v, dawn_utc s d lat lon = .ok v) ∨ dawn_utc s d lat lon = .error solarErrorMsg) ∧
    ((∃ v, sunrise_utc s d lat lon = .ok v) ∨ sunrise_utc s d lat lon = .error solarErrorMsg) ∧
    ((∃ v, sunset_utc s d lat lon = .ok v) ∨ sunset_utc s d lat lon = .error solarErrorMsg) ∧
    ((∃ v, dusk_utc s d lat lon = .ok v) ∨ dusk_utc s d lat lon = .error solarErrorMsg) := by
  refine ⟨?_, ?_, ?_, ?_⟩
  · cases h : calc_time d lat lon s.depression with
    | ok v => exact Or.inl ⟨v, by rw [dawn_utc, h]⟩
    | error e => exact Or.inr (by rw [dawn_utc, h])
  · cases h : calc_time d lat lon 0.833 with
    | ok v => exact Or.inl ⟨v, by rw [sunrise_utc, h]⟩
    | error e => exact Or.inr (by rw [sunrise_utc, h])
  · cases h : calc_time d lat lon (-0.833) with
    | ok v => exact Or.inl ⟨v, by rw [sunset_utc, h]⟩
    | error e => exact Or.inr (by rw [sunset_utc, h])
  · cases h : calc_time d lat lon (-s.depression) with
    | ok v => exact Or.inl ⟨v, by rw [dusk_utc, h]⟩
    | error e => exact Or.inr (by rw [dusk_utc, h])

/-! ## Claim C7: the depression setter -/

/-- C7 (confirmed).  The names `civil`/`nautical`/`astronomical` store 6/12/18
degrees; any other string fails with `InvalidConfiguration`; a numeric value is
stored as-is with no further validation; and construction without an argument
(i.e. with the default argument `6`) yields depression 6. -/
theorem claim_C7 :
    (∀ st : SolarTime, set_solar_depression st (.inl "civil") = .ok ⟨6⟩) ∧
    (∀ st : SolarTime, set_solar_depression st (.inl "nautical") = .ok ⟨12⟩) ∧
    (∀ st : SolarTime, set_solar_depression st (.inl "astronomical") = .ok ⟨18⟩) ∧
    (∀ (st : SolarTime) (s : String), s ≠ "civil" → s ≠ "nautical" → s ≠ "astronomical" →
        set_solar_depression st (.inl s) = .error .invalidConfiguration) ∧
    (∀ (st : SolarTime) (x : ℝ), set_solar_depression st (.inr x) = .ok ⟨x⟩) ∧
    SolarTime.init (.inr 6) = .ok ⟨6⟩ := by
  refine ⟨fun _ => rfl, fun _ => rfl, fun _ => rfl, ?_, fun _ _ => rfl, rfl⟩
  intro st s h1 h2 h3
  rw [set_solar_depression, depressionPresets, if_neg h1, if_neg h2, if_neg h3]

/-- Witness for C7 at a concrete unrecognized name. -/
theorem claim_C7_witness :
    "twilight" ≠ "civil" ∧ "twilight" ≠ "nautical" ∧ "twilight" ≠ "astronomical" ∧
      set_solar_depression ⟨6⟩ (.inl "twilight") = .error .invalidConfiguration :=
  ⟨by decide, by decide, by decide,
    claim_C7.2.2.2.1 ⟨6⟩ "twilight" (by decide) (by decide) (by decide)⟩

/-! ## Claim C6: latitude is clamped to [-89.8, 89.8] before use -/

/-- C6 (confirmed).  For every date and longitude, each of the four event operations
called with a latitude above 89.8 returns exactly what it returns at latitude 89.8,
and symmetrically below -89.8.  (Latitude is passed by value; the embedding is pure,
so the caller's argument is unchanged by construction.) -/
theorem claim_C6 (s : SolarTime) (d : Date) (lon lat1 lat2 : ℝ)
    (h1 : 89.8 < lat1) (h2 : lat2 < -89.8) :
    (dawn_utc s d lat1 lon = dawn_utc s d 89.8 lon ∧
     sunrise_utc s d lat1 lon = sunrise_utc s d 89.8 lon ∧
     sunset_utc s d lat1 lon = sunset_utc s d 89.8 lon ∧
     dusk_utc s d lat1 lon = dusk_utc s d 89.8 lon) ∧
    (dawn_utc s d lat2 lon = dawn_utc s d (-89.8) lon ∧
     sunrise_utc s d lat2 lon = sunrise_utc s d (-89.8) lon ∧
     sunset_utc s d lat2 lon = sunset_utc s d (-89.8) lon ∧
     dusk_utc s d lat2 lon = dusk_utc s d (-89.8) lon) := by
  have e1 : clampLat lat1 = clampLat 89.8 := by rw [clampLat_of_gt h1, clampLat_high]
  have e2 : clampLat lat2 = clampLat (-89.8) := by rw [clampLat_of_lt h2, clampLat_low]
  exact ⟨⟨dawn_utc_congr_clamp e1 s d lon, sunrise_utc_congr_clamp e1 s d lon,
      sunset_utc_congr_clamp e1 s d lon, dusk_utc_congr_clamp e1 s d lon⟩,
    ⟨dawn_utc_congr_clamp e2 s d lon, sunrise_utc_congr_clamp e2 s d lon,
      sunset_utc_congr_clamp e2 s d lon, dusk_utc_congr_clamp e2 s d lon⟩⟩

/-- Witness for C6 at latitude 95 (and -95): the spec's own test case. -/
theorem claim_C6_witness :
    (89.8 : ℝ) < 95 ∧ (-95 : ℝ) < -89.8 ∧
      dawn_utc ⟨6⟩ ⟨2015, 1, 20⟩ (95 : ℝ) (-79) = dawn_utc ⟨6⟩ ⟨2015, 1, 20⟩ (89.8 : ℝ) (-79) ∧
      dusk_utc ⟨6⟩ ⟨2015, 1, 20⟩ (-95 : ℝ) (-79) = dusk_utc ⟨6⟩ ⟨2015, 1, 20⟩ (-89.8 : ℝ) (-79) :=
  ⟨by norm_num, by norm_num,
    (claim_C6 ⟨6⟩ ⟨2015, 1, 20⟩ (-79) 95 (-95) (by norm_num) (by norm_num)).1.1,
    (claim_C6 ⟨6⟩ ⟨2015, 1, 20⟩ (-79) 95 (-95) (by norm_num) (by norm_num)).2.2.2.2⟩

/-! ## Claim C8: the Julian-day formula -/

/-- The uncorrected Julian day is always a half-integer, so the code's strict test
against `2299160.4999999` coincides with the spec's `≥ 2299160.5` threshold. -/
theorem jd_branch (b : ℚ) (c : ℤ) (corr : ℚ) (hbk : ∃ k : ℤ, b = k + 1 / 2)
    (hc : (c : ℚ) = corr) :
    (if b > 2299160.4999999 then b + (c : ℚ) else b) =
      (if 2299160.5 ≤ b then b + corr else b) := by
  obtain ⟨k, hk⟩ := hbk
  rcases le_or_lt (2299160.5 : ℚ) b with h | h
  · rw [if_pos (by linarith), if_pos h, hc]
  · have hk' : k ≤ 2299159 := by
      by_contra hcon
      push_neg at hcon
      have : (2299160 : ℚ) ≤ (k : ℚ) := by exact_mod_cast hcon
      linarith [hk]
    have hb' : b ≤ 2299159.5 := by
      have : (k : ℚ) ≤ 2299159 := by exact_mod_cast hk'
      linarith [hk]
    rw [if_neg (by norm_num; linarith), if_neg (not_le.mpr h)]

/-- C8 (confirmed).  `_julianday` computes exactly the claim's formula: the standard
astronomical Julian day with months 13/14 for January/February, plus the Gregorian
correction `2 - ⌊y/100⌋ + ⌊⌊y/100⌋/4⌋` exactly for dates on or after the Gregorian
adoption threshold (uncorrected day count ≥ 2299160.5, i.e. 1582-10-15 onward), and
without it before.  The anchor values pin the threshold to the adoption dates:
1582-10-04 (last Julian day) ↦ 2299159.5 uncorrected, and 1582-10-15 (first
Gregorian day) ↦ 2299160.5 corrected. -/
theorem claim_C8 :
    (∀ d : Date, julianday d = juliandaySpec d) ∧
    julianday ⟨1582, 10, 4⟩ = 2299159.5 ∧
    julianday ⟨1582, 10, 15⟩ = 2299160.5 ∧
    julianday ⟨2015, 1, 20⟩ = 2457042.5 := by
  refine ⟨?_, ?_, ?_, ?_⟩
  · intro d
    simp only [julianday, juliandaySpec]
    refine jd_branch _ _ _
      ⟨⌊(365.25 : ℚ) * ((((if d.month ≤ 2 then d.year - 1 else d.year) : ℤ) : ℚ) + 4716)⌋ +
        ⌊(30.6001 : ℚ) * ((((if d.month ≤ 2 then d.month + 12 else d.month) : ℤ) : ℚ) + 1)⌋ +
        d.day - 1525, ?_⟩ (by push_cast; ring)
    push_cast
    ring
  · norm_num [julianday, Int.floor_eq_iff]
  · norm_num [julianday, Int.floor_eq_iff]
  · norm_num [julianday, Int.floor_eq_iff]

/-! ## Date arithmetic -/

theorem daysInMonth_ge (y m : ℤ) : 28 ≤ daysInMonth y m := by
  unfold daysInMonth; split_ifs <;> omega

theorem daysInMonth_le (y m : ℤ) : daysInMonth y m ≤ 31 := by
  unfold daysInMonth; split_ifs <;> omega

/-- Stepping a valid non-maximal date forward yields a valid date. -/
theorem succD_isValid {d : Date} (hv : d.isValid) (hne : d ≠ ⟨9999, 12, 31⟩) :
    ∃ d2, d.succD = some d2 ∧ d2.isValid := by
  obtain ⟨h1, h2, h3, h4, h5, h6⟩ := hv
  have hg : ¬(d.year = 9999 ∧ d.month = 12 ∧ d.day = 31) := by
    rintro ⟨a, b, c⟩
    exact hne (by cases d; simp_all)
  rw [Date.succD, if_neg hg]
  by_cases hd : d.day < daysInMonth d.year d.month
  · rw [if_pos hd]
    refine ⟨_, rfl, ?_⟩
    show 1 ≤ d.year ∧ d.year ≤ 9999 ∧ 1 ≤ d.month ∧ d.month ≤ 12 ∧
      1 ≤ d.day + 1 ∧ d.day + 1 ≤ daysInMonth d.year d.month
    exact ⟨h1, h2, h3, h4, by omega, by omega⟩
  · rw [if_neg hd]
    by_cases hm : d.month < 12
    · rw [if_pos hm]
      refine ⟨_, rfl, ?_⟩
      show 1 ≤ d.year ∧ d.year ≤ 9999 ∧ 1 ≤ d.month + 1 ∧ d.month + 1 ≤ 12 ∧
        1 ≤ (1 : ℤ) ∧ 1 ≤ daysInMonth d.year (d.month + 1)
      have := daysInMonth_ge d.year (d.month + 1)
      exact ⟨h1, h2, by omega, by omega, by omega, by omega⟩
    · rw [if_neg hm]
      have hm12 : d.month = 12 := by omega
      have hdim : daysInMonth d.year 12 = 31 := by unfold daysInMonth; norm_num
      have hday : d.day = 31 := by rw [hm12] at h6 hd; omega
      have hy : d.year ≠ 9999 := fun hy => hg ⟨hy, hm12, hday⟩
      have hdim2 : daysInMonth (d.year + 1) 1 = 31 := by unfold daysInMonth; norm_num
      refine ⟨_, rfl, ?_⟩
      show 1 ≤ d.year + 1 ∧ d.year + 1 ≤ 9999 ∧ 1 ≤ (1 : ℤ) ∧ (1 : ℤ) ≤ 12 ∧
        1 ≤ (1 : ℤ) ∧ 1 ≤ daysInMonth (d.year + 1) 1
      exact ⟨by omega, by omega, by omega, by omega, by omega, by omega⟩

/-- Stepping a valid non-minimal date backward yields a valid date. -/
theorem predD_isValid {d : Date} (hv : d.isValid) (hne : d ≠ ⟨1, 1, 1⟩) :
    ∃ d2, d.predD = some d2 ∧ d2.isValid := by
  obtain ⟨h1, h2, h3, h4, h5, h6⟩ := hv
  have hg : ¬(d.year = 1 ∧ d.month = 1 ∧ d.day = 1) := by
    rintro ⟨a, b, c⟩
    exact hne (by cases d; simp_all)
  rw [Date.predD, if_neg hg]
  by_cases hd : 1 < d.day
  · rw [if_pos hd]
    refine ⟨_, rfl, ?_⟩
    show 1 ≤ d.year ∧ d.year ≤ 9999 ∧ 1 ≤ d.month ∧ d.month ≤ 12 ∧
      1 ≤ d.day - 1 ∧ d.day - 1 ≤ daysInMonth d.year d.month
    exact ⟨h1, h2, h3, h4, by omega, by omega⟩
  · rw [if_neg hd]
    by_cases hm : 1 < d.month
    · rw [if_pos hm]
      refine ⟨_, rfl, ?_⟩
      show 1 ≤ d.year ∧ d.year ≤ 9999 ∧ 1 ≤ d.month - 1 ∧ d.month - 1 ≤ 12 ∧
        1 ≤ daysInMonth d.year (d.month - 1) ∧
          daysInMonth d.year (d.month - 1) ≤ daysInMonth d.year (d.month - 1)
      have := daysInMonth_ge d.year (d.month - 1)
      exact ⟨h1, h2, by omega, by omega, by omega, le_refl _⟩
    · rw [if_neg hm]
      have hm1 : d.month = 1 := by omega
      have hday : d.day = 1 := by omega
      have hy : d.year ≠ 1 := fun hy => hg ⟨hy, hm1, hday⟩
      have hdim : daysInMonth (d.year - 1) 12 = 31 := by unfold daysInMonth; norm_num
      refine ⟨_, rfl, ?_⟩
      show 1 ≤ d.year - 1 ∧ d.year - 1 ≤ 9999 ∧ 1 ≤ (12 : ℤ) ∧ (12 : ℤ) ≤ 12 ∧
        1 ≤ (31 : ℤ) ∧ (31 : ℤ) ≤ daysInMonth (d.year - 1) 12
      exact ⟨by omega, by omega, by omega, by omega, by omega, by omega⟩

/-- The `datetime.datetime` constructor succeeds on in-range arguments. -/
theorem mkDatetime_ok {d : Date} {h m s : ℤ} (hv : d.isValid) (h1 : 0 ≤ h) (h2 : h ≤ 23)
    (h3 : 0 ≤ m) (h4 : m ≤ 59) (h5 : 0 ≤ s) (h6 : s ≤ 59) :
    mkDatetime d h m s = .ok ⟨d, h, m, s⟩ := by
  unfold mkDatetime
  rw [if_pos ⟨hv, h1, h2, h3, h4, h5, h6⟩]

/-! ## Claim C5: normalization, truncation, and the one-day rollover -/

/-- The normalization succeeds whenever the adjusted hour lies within one day of
the valid range and the date can absorb a one-day shift; the result's date and hour
satisfy the rollover contract. -/
theorem normalizeTime_ok_of_window {d : Date} {tu : ℝ} (hv : d.isValid)
    (hmin : d ≠ ⟨1, 1, 1⟩) (hmax : d ≠ ⟨9999, 12, 31⟩)
    (hlo : -24 ≤ nh1 (tu / 60)) (hhi : nh1 (tu / 60) ≤ 47) :
    ∃ dt : Datetime, normalizeTime d tu = .ok dt ∧
      0 ≤ dt.hour ∧ dt.hour ≤ 23 ∧ dt.minute = nm2 (tu / 60) ∧ dt.second = ns1 (tu / 60) ∧
      (23 < nh1 (tu / 60) → d.succD = some dt.date ∧ dt.hour = nh1 (tu / 60) - 24) ∧
      (nh1 (tu / 60) < 0 → d.predD = some dt.date ∧ dt.hour = nh1 (tu / 60) + 24) ∧
      (0 ≤ nh1 (tu / 60) → nh1 (tu / 60) ≤ 23 → dt.date = d ∧ dt.hour = nh1 (tu / 60)) := by
  obtain ⟨hs1, hs2, hm1, hm2, htot⟩ := hms_spec (tu / 60)
  simp only [normalizeTime]
  by_cases hgt : nh1 (tu / 60) > 23
  · obtain ⟨d2, hd2, hd2v⟩ := succD_isValid hv hmax
    rw [if_pos hgt, hd2]
    simp only []
    rw [mkDatetime_ok hd2v (by omega) (by omega) hm1 hm2 hs1 hs2]
    refine ⟨⟨d2, nh1 (tu / 60) - 24, nm2 (tu / 60), ns1 (tu / 60)⟩, rfl, ?_⟩
    exact ⟨show (0 : ℤ) ≤ nh1 (tu / 60) - 24 by omega,
      show nh1 (tu / 60) - 24 ≤ 23 by omega, rfl, rfl, fun _ => ⟨rfl, rfl⟩,
      fun h => absurd h (by omega), fun _ h => absurd hgt (by omega)⟩
  · rw [if_neg hgt]
    by_cases hlt : nh1 (tu / 60) < 0
    · obtain ⟨d2, hd2, hd2v⟩ := predD_isValid hv hmin
      rw [if_pos hlt, hd2]
      simp only []
      rw [mkDatetime_ok hd2v (by omega) (by omega) hm1 hm2 hs1 hs2]
      refine ⟨⟨d2, nh1 (tu / 60) + 24, nm2 (tu / 60), ns1 (tu / 60)⟩, rfl, ?_⟩
      exact ⟨show (0 : ℤ) ≤ nh1 (tu / 60) + 24 by omega,
        show nh1 (tu / 60) + 24 ≤ 23 by omega, rfl, rfl, fun h => absurd h (by omega),
        fun _ => ⟨rfl, rfl⟩, fun h => absurd hlt (by omega)⟩
    · rw [if_neg hlt, mkDatetime_ok hv (by omega) (by omega) hm1 hm2 hs1 hs2]
      refine ⟨⟨d, nh1 (tu / 60), nm2 (tu / 60), ns1 (tu / 60)⟩, rfl, ?_⟩
      exact ⟨show (0 : ℤ) ≤ nh1 (tu / 60) by omega,
        show nh1 (tu / 60) ≤ 23 by omega, rfl, rfl, fun h => absurd h (by omega),
        fun h => absurd h (by omega), fun _ _ => ⟨rfl, rfl⟩⟩

/-- C5 (amended and proved).  In the normalization tail shared by every
time-computing operation, the fractional minutes are truncated (never rounded)
stage by stage — the final hour/minute/second total is exactly the truncation
toward zero of `3600·T` seconds — with carry/borrow propagation leaving minutes and
seconds in `[0, 59]`; and *provided the adjusted hour lies within one day of the
valid range* (in `[-24, 47]`) and the date is not at the calendar boundary, a
computed hour outside `[0, 23]` shifts the returned calendar date by exactly one
day (forward past 23, backward below 0) and wraps the hour into `[0, 24)`.
(The original claim is false without the proviso: an hour beyond that window is
wrapped by at most 24 and the `datetime` constructor then rejects it — see the
counterexample.) -/
theorem claim_C5 (d : Date) (tu : ℝ) :
    0 ≤ ns1 (tu / 60) ∧ ns1 (tu / 60) ≤ 59 ∧
    0 ≤ nm2 (tu / 60) ∧ nm2 (tu / 60) ≤ 59 ∧
    3600 * nh1 (tu / 60) + 60 * nm2 (tu / 60) + ns1 (tu / 60) = pytrunc (3600 * (tu / 60)) ∧
    (d.isValid → d ≠ ⟨1, 1, 1⟩ → d ≠ ⟨9999, 12, 31⟩ →
      -24 ≤ nh1 (tu / 60) → nh1 (tu / 60) ≤ 47 →
      ∃ dt : Datetime, normalizeTime d tu = .ok dt ∧
        0 ≤ dt.hour ∧ dt.hour ≤ 23 ∧ dt.minute = nm2 (tu / 60) ∧ dt.second = ns1 (tu / 60) ∧
        (23 < nh1 (tu / 60) → d.succD = some dt.date ∧ dt.hour = nh1 (tu / 60) - 24) ∧
        (nh1 (tu / 60) < 0 → d.predD = some dt.date ∧ dt.hour = nh1 (tu / 60) + 24) ∧
        (0 ≤ nh1 (tu / 60) → nh1 (tu / 60) ≤ 23 → dt.date = d ∧ dt.hour = nh1 (tu / 60))) := by
  obtain ⟨hs1, hs2, hm1, hm2, htot⟩ := hms_spec (tu / 60)
  exact ⟨hs1, hs2, hm1, hm2, htot,
    fun hv hmin hmax hlo hhi => normalizeTime_ok_of_window hv hmin hmax hlo hhi⟩

/-- Witness for C5: at 1530 fractional minutes (25.5 hours) on 2015-01-20 the
adjusted hour is 25, inside the provable window, and the date rolls forward. -/
theorem claim_C5_witness :
    (⟨2015, 1, 20⟩ : Date).isValid ∧ (⟨2015, 1, 20⟩ : Date) ≠ ⟨1, 1, 1⟩ ∧
    (⟨2015, 1, 20⟩ : Date) ≠ ⟨9999, 12, 31⟩ ∧
    -24 ≤ nh1 ((1530 : ℝ) / 60) ∧ nh1 ((1530 : ℝ) / 60) ≤ 47 ∧
    (∃ dt : Datetime, normalizeTime ⟨2015, 1, 20⟩ 1530 = .ok dt ∧
      0 ≤ dt.hour ∧ dt.hour ≤ 23 ∧ dt.minute = nm2 ((1530 : ℝ) / 60) ∧
      dt.second = ns1 ((1530 : ℝ) / 60) ∧
      (23 < nh1 ((1530 : ℝ) / 60) → (⟨2015, 1, 20⟩ : Date).succD = some dt.date ∧
        dt.hour = nh1 ((1530 : ℝ) / 60) - 24) ∧
      (nh1 ((1530 : ℝ) / 60) < 0 → (⟨2015, 1, 20⟩ : Date).predD = some dt.date ∧
        dt.hour = nh1 ((1530 : ℝ) / 60) + 24) ∧
      (0 ≤ nh1 ((1530 : ℝ) / 60) → nh1 ((1530 : ℝ) / 60) ≤ 23 →
        dt.date = ⟨2015, 1, 20⟩ ∧ dt.hour = nh1 ((1530 : ℝ) / 60))) := by
  have hn : nh1 ((1530 : ℝ) / 60) = 25 := by norm_num [nh1, nm1, ns0, nm0, nh0, pytrunc]
  exact ⟨by decide, by decide, by decide, by rw [hn]; norm_num, by rw [hn]; norm_num,
    (claim_C5 ⟨2015, 1, 20⟩ 1530).2.2.2.2.2 (by decide) (by decide) (by decide)
      (by rw [hn]; norm_num) (by rw [hn]; norm_num)⟩

/-! ## Elementary trigonometric bounds used by the interval analysis -/

theorem sin_le_arg {x : ℝ} (h : 0 ≤ x) : Real.sin x ≤ x := by
  rcases eq_or_lt_of_le h with h0 | h0
  · simp [← h0]
  · exact (Real.sin_lt h0).le

theorem abs_sin_le_arg {x : ℝ} (h : 0 ≤ x) : |Real.sin x| ≤ x := by
  rcases le_or_lt 1 x with hx | hx
  · exact (Real.abs_sin_le_one x).trans hx
  · have hs : 0 ≤ Real.sin x :=
      Real.sin_nonneg_of_nonneg_of_le_pi h (by linarith [Real.pi_gt_three])
    rw [abs_of_nonneg hs]
    exact sin_le_arg h

theorem cos_ge_quadratic {x : ℝ} (h0 : 0 ≤ x) (h1 : x ≤ 1) :
    1 - x ^ 2 / 2 - x ^ 4 * (5 / 96) ≤ Real.cos x := by
  have hb := Real.cos_bound (show |x| ≤ 1 by rwa [abs_of_nonneg h0])
  rw [abs_of_nonneg h0] at hb
  rw [abs_le] at hb
  linarith [hb.1]

theorem cos_add_pi_div_two (x : ℝ) : Real.cos (Real.pi / 2 + x) = -Real.sin x := by
  rw [Real.cos_add, Real.cos_pi_div_two, Real.sin_pi_div_two]
  ring

theorem radians_of_ninety_plus (dep : ℝ) : radians (90 + dep) = Real.pi / 2 + radians dep := by
  unfold radians
  ring

theorem cos_radians_ninety_plus (dep : ℝ) :
    Real.cos (radians (90 + dep)) = -Real.sin (radians dep) := by
  rw [radians_of_ninety_plus, cos_add_pi_div_two]

theorem radians_degrees_id (x : ℝ) : radians (degrees x) = x := by
  unfold radians degrees
  field_simp

theorem degrees_neg (x : ℝ) : degrees (-x) = -degrees x := by
  unfold degrees
  ring

theorem degrees_nonneg {x : ℝ} (h : 0 ≤ x) : 0 ≤ degrees x := by
  unfold degrees
  positivity

theorem degrees_le_180 {x : ℝ} (h : x ≤ Real.pi) : degrees x ≤ 180 := by
  unfold degrees
  rw [div_le_iff₀ Real.pi_pos]
  nlinarith [Real.pi_pos]

theorem jcentury_round_trip (t x : ℝ) :
    jday_to_jcentury (jcentury_to_jday t + x) = t + x / 36525 := by
  unfold jday_to_jcentury jcentury_to_jday
  ring

open Real

/-! ## Interval bounds on the astronomical series over the full date range -/

/-- Bounds on the mean obliquity polynomial over the Julian centuries reachable
from any valid `datetime.date` (years 1–9999, `t ∈ [-20.01, 80.01]`). -/
theorem mean_obliq_bounds {t : ℝ} (h1 : -20.01 ≤ t) (h2 : t ≤ 80.01) :
    22.655 ≤ mean_obliquity_of_ecliptic t ∧ mean_obliquity_of_ecliptic t ≤ 23.697 := by
  unfold mean_obliquity_of_ecliptic
  constructor <;>
    nlinarith [mul_nonneg (sub_nonneg.2 h1) (sub_nonneg.2 h2),
      mul_nonneg (mul_nonneg (sub_nonneg.2 h1) (sub_nonneg.2 h1)) (sub_nonneg.2 h2),
      mul_nonneg (sub_nonneg.2 h1) (mul_nonneg (sub_nonneg.2 h2) (sub_nonneg.2 h2)),
      sq_nonneg (t + 20.01), sq_nonneg (t - 80.01)]

/-- Bounds on the corrected obliquity over the same range. -/
theorem obliq_bounds {t : ℝ} (h1 : -20.01 ≤ t) (h2 : t ≤ 80.01) :
    22.65 ≤ obliquity_correction t ∧ obliquity_correction t ≤ 23.70 := by
  obtain ⟨hl, hh⟩ := mean_obliq_bounds h1 h2
  unfold obliquity_correction
  have hc1 := Real.neg_one_le_cos (radians (125.04 - 1934.136 * t))
  have hc2 := Real.cos_le_one (radians (125.04 - 1934.136 * t))
  constructor <;> nlinarith

/-- Bounds on the orbital eccentricity polynomial over the same range. -/
theorem ecc_bounds {t : ℝ} (h1 : -20.01 ≤ t) (h2 : t ≤ 80.01) :
    0.0125 ≤ eccentrilocation_earth_orbit t ∧ eccentrilocation_earth_orbit t ≤ 0.0176 := by
  unfold eccentrilocation_earth_orbit
  constructor <;>
    nlinarith [mul_nonneg (sub_nonneg.2 h1) (sub_nonneg.2 h2),
      sq_nonneg (t + 20.01), sq_nonneg (t - 80.01)]

/-- The obliquity in radians lies in `[0.395, 0.414]` over the range. -/
theorem radians_obliq_bounds {t : ℝ} (h1 : -20.01 ≤ t) (h2 : t ≤ 80.01) :
    0.395 ≤ radians (obliquity_correction t) ∧ radians (obliquity_correction t) ≤ 0.414 := by
  obtain ⟨hl, hh⟩ := obliq_bounds h1 h2
  have hp1 : (3.141592 : ℝ) < Real.pi := Real.pi_gt_d6
  have hp2 : Real.pi < 3.141593 := Real.pi_lt_d6
  unfold radians
  constructor <;> nlinarith

/-- The squared tangent `y` of the half-obliquity is in `[0, 0.0447]` over the range. -/
theorem y_bounds {t : ℝ} (h1 : -20.01 ≤ t) (h2 : t ≤ 80.01) :
    0 ≤ tan (radians (obliquity_correction t) / 2.0) * tan (radians (obliquity_correction t) / 2.0) ∧
    tan (radians (obliquity_correction t) / 2.0) * tan (radians (obliquity_correction t) / 2.0)
      ≤ 0.0448 := by
  obtain ⟨hl, hh⟩ := radians_obliq_bounds h1 h2
  set x := radians (obliquity_correction t) / 2.0 with hx
  have hx0 : 0 ≤ x := by rw [hx]; linarith
  have hx1 : x ≤ 0.207 := by rw [hx]; linarith
  have hcos : (0.9784 : ℝ) ≤ Real.cos x := by
    have := cos_ge_quadratic hx0 (by linarith)
    nlinarith [pow_le_pow_left₀ hx0 hx1 2, pow_le_pow_left₀ hx0 hx1 4]
  have hsin : Real.sin x ≤ 0.207 := (sin_le_arg hx0).trans hx1
  have hsin0 : 0 ≤ Real.sin x :=
    Real.sin_nonneg_of_nonneg_of_le_pi hx0 (by linarith [Real.pi_gt_three])
  have htan : Real.tan x ≤ 0.2116 := by
    rw [Real.tan_eq_sin_div_cos]
    rw [div_le_iff₀ (by linarith)]
    nlinarith
  have htan0 : 0 ≤ Real.tan x := by
    rw [Real.tan_eq_sin_div_cos]
    positivity
  constructor
  · exact mul_self_nonneg _
  · nlinarith

set_option maxHeartbeats 1000000 in
/-- Over the full reachable range of Julian centuries, the cosine of the solar
declination (in radians) stays above 0.91: the declination never leaves about
`±24°`, so the hour-angle denominators never degenerate. -/
theorem cos_rad_declination_ge {t : ℝ} (h1 : -20.01 ≤ t) (h2 : t ≤ 80.01) :
    0.91 ≤ cos (radians (sun_declination t)) := by
  obtain ⟨hl, hh⟩ := radians_obliq_bounds h1 h2
  simp only [sun_declination]
  rw [radians_degrees_id, cos_arcsin]
  have habs : |sin (radians (obliquity_correction t)) * sin (radians (sun_apparent_long t))|
      ≤ 0.414 := by
    rw [abs_mul]
    have ha : |sin (radians (obliquity_correction t))| ≤ 0.414 :=
      (abs_sin_le_arg (by linarith)).trans hh
    have hb : |sin (radians (sun_apparent_long t))| ≤ 1 := abs_sin_le_one _
    nlinarith [abs_nonneg (sin (radians (obliquity_correction t))),
      abs_nonneg (sin (radians (sun_apparent_long t)))]
  have hs2 : (sin (radians (obliquity_correction t)) * sin (radians (sun_apparent_long t))) ^ 2
      ≤ 0.171396 := by
    nlinarith [sq_abs (sin (radians (obliquity_correction t)) *
      sin (radians (sun_apparent_long t))), abs_nonneg (sin (radians (obliquity_correction t)) *
      sin (radians (sun_apparent_long t)))]
  rw [Real.le_sqrt (by norm_num) (by nlinarith)]
  nlinarith

set_option maxHeartbeats 2000000 in
/-- The equation of time stays within ±20 minutes over the full reachable range. -/
theorem eq_of_time_abs_le {t : ℝ} (h1 : -20.01 ≤ t) (h2 : t ≤ 80.01) :
    |eq_of_time t| ≤ 20 := by
  obtain ⟨hy0, hy1⟩ := y_bounds h1 h2
  obtain ⟨he0, he1⟩ := ecc_bounds h1 h2
  have he0' : (0 : ℝ) ≤ eccentrilocation_earth_orbit t := by linarith
  simp only [eq_of_time]
  set y := tan (radians (obliquity_correction t) / 2.0) *
    tan (radians (obliquity_correction t) / 2.0) with hydef
  set e := eccentrilocation_earth_orbit t with hedef
  set s1 := sin (2.0 * radians (geom_mean_long_sun t)) with hs1def
  set sm := sin (radians (geom_mean_anomaly_sun t)) with hsmdef
  set c1 := cos (2.0 * radians (geom_mean_long_sun t)) with hc1def
  set s4 := sin (4.0 * radians (geom_mean_long_sun t)) with hs4def
  set s2m := sin (2.0 * radians (geom_mean_anomaly_sun t)) with hs2mdef
  have hs1b := abs_le.mp (abs_sin_le_one (2.0 * radians (geom_mean_long_sun t)))
  have hsmb := abs_le.mp (abs_sin_le_one (radians (geom_mean_anomaly_sun t)))
  have hc1b := abs_le.mp (abs_cos_le_one (2.0 * radians (geom_mean_long_sun t)))
  have hs4b := abs_le.mp (abs_sin_le_one (4.0 * radians (geom_mean_long_sun t)))
  have hs2mb := abs_le.mp (abs_sin_le_one (2.0 * radians (geom_mean_anomaly_sun t)))
  rw [← hs1def] at hs1b
  rw [← hsmdef] at hsmb
  rw [← hc1def] at hc1b
  rw [← hs4def] at hs4b
  rw [← hs2mdef] at hs2mb
  have hsc : -1 ≤ sm * c1 ∧ sm * c1 ≤ 1 :=
    ⟨by nlinarith [hsmb.1, hsmb.2, hc1b.1, hc1b.2],
     by nlinarith [hsmb.1, hsmb.2, hc1b.1, hc1b.2]⟩
  have h4ey0 : (0 : ℝ) ≤ 4.0 * e * y := by
    have := mul_nonneg he0' hy0
    nlinarith
  have h4eyle : 4.0 * e * y ≤ 0.00316 := by
    nlinarith [mul_nonneg (sub_nonneg.2 he1) hy0]
  have hA : y * s1 ≤ 0.0448 := by nlinarith [mul_nonneg hy0 (sub_nonneg.2 hs1b.2)]
  have hA' : -0.0448 ≤ y * s1 := by
    nlinarith [mul_nonneg hy0 (sub_nonneg.2 (neg_le_iff_add_nonneg.mp hs1b.1))]
  have hB : 2.0 * e * sm ≤ 0.0352 := by
    nlinarith [mul_nonneg he0' (sub_nonneg.2 hsmb.2)]
  have hB' : -0.0352 ≤ 2.0 * e * sm := by
    nlinarith [mul_nonneg he0' (sub_nonneg.2 (neg_le_iff_add_nonneg.mp hsmb.1))]
  have hC : 4.0 * e * y * sm * c1 ≤ 0.00316 := by
    nlinarith [mul_nonneg h4ey0 (sub_nonneg.2 hsc.2)]
  have hC' : -0.00316 ≤ 4.0 * e * y * sm * c1 := by
    nlinarith [mul_nonneg h4ey0 (sub_nonneg.2 (neg_le_iff_add_nonneg.mp hsc.1))]
  have hyy : y * y ≤ 0.00201 := by nlinarith
  have hD : 0.5 * y * y * s4 ≤ 0.00101 := by
    nlinarith [mul_nonneg (mul_nonneg hy0 hy0) (sub_nonneg.2 hs4b.2),
      mul_nonneg (mul_nonneg hy0 hy0) (sub_nonneg.2 (neg_le_iff_add_nonneg.mp hs4b.1))]
  have hD' : -0.00101 ≤ 0.5 * y * y * s4 := by
    nlinarith [mul_nonneg (mul_nonneg hy0 hy0) (sub_nonneg.2 hs4b.2),
      mul_nonneg (mul_nonneg hy0 hy0) (sub_nonneg.2 (neg_le_iff_add_nonneg.mp hs4b.1))]
  have hee : e * e ≤ 0.00031 := by nlinarith
  have hF : 1.25 * e * e * s2m ≤ 0.000388 := by
    nlinarith [mul_nonneg (mul_nonneg he0' he0') (sub_nonneg.2 hs2mb.2),
      mul_nonneg (mul_nonneg he0' he0') (sub_nonneg.2 (neg_le_iff_add_nonneg.mp hs2mb.1))]
  have hF' : -0.000388 ≤ 1.25 * e * e * s2m := by
    nlinarith [mul_nonneg (mul_nonneg he0' he0') (sub_nonneg.2 hs2mb.2),
      mul_nonneg (mul_nonneg he0' he0') (sub_nonneg.2 (neg_le_iff_add_nonneg.mp hs2mb.1))]
  have hE : |y * s1 - 2.0 * e * sm + 4.0 * e * y * sm * c1 - 0.5 * y * y * s4
      - 1.25 * e * e * s2m| ≤ 0.085 := by
    rw [abs_le]
    constructor <;> linarith
  have hπ : (3.141592 : ℝ) < π := pi_gt_d6
  unfold degrees
  rw [abs_mul, abs_div, abs_mul, abs_of_pos pi_pos,
    abs_of_nonneg (by norm_num : (0:ℝ) ≤ 180), abs_of_nonneg (by norm_num : (0:ℝ) ≤ 4.0)]
  rw [div_mul_eq_mul_div, div_le_iff₀ pi_pos]
  nlinarith [abs_nonneg (y * s1 - 2.0 * e * sm + 4.0 * e * y * sm * c1 - 0.5 * y * y * s4
    - 1.25 * e * e * s2m)]

/-! ## The Julian day and Julian century of every valid date -/

set_option maxHeartbeats 800000 in
theorem julianday_bounds {d : Date} (hv : d.isValid) :
    (1721020 : ℚ) ≤ julianday d ∧ julianday d ≤ 5373646 := by
  obtain ⟨h1, h2, h3, h4, h5, h6⟩ := hv
  have hdim := daysInMonth_le d.year d.month
  simp only [julianday]
  set y : ℤ := if d.month ≤ 2 then d.year - 1 else d.year with hy
  set m : ℤ := if d.month ≤ 2 then d.month + 12 else d.month with hm
  have hy0 : 0 ≤ y := by rw [hy]; split_ifs <;> omega
  have hy9 : y ≤ 9999 := by rw [hy]; split_ifs <;> omega
  have hm3 : 3 ≤ m := by rw [hm]; split_ifs <;> omega
  have hm14 : m ≤ 14 := by rw [hm]; split_ifs <;> omega
  have hyq0 : (0 : ℚ) ≤ (y : ℚ) := by exact_mod_cast hy0
  have hyq9 : ((y : ℚ)) ≤ 9999 := by exact_mod_cast hy9
  have hmq3 : (3 : ℚ) ≤ (m : ℚ) := by exact_mod_cast hm3
  have hmq14 : ((m : ℚ)) ≤ 14 := by exact_mod_cast hm14
  have hdq1 : (1 : ℚ) ≤ (d.day : ℚ) := by exact_mod_cast h5
  have hdq31 : ((d.day : ℚ)) ≤ 31 := by exact_mod_cast (le_trans h6 hdim)
  have hf1l : (1722519 : ℤ) ≤ ⌊(365.25 : ℚ) * ((y : ℚ) + 4716)⌋ :=
    Int.le_floor.mpr (by push_cast; nlinarith)
  have hf1u : ⌊(365.25 : ℚ) * ((y : ℚ) + 4716)⌋ ≤ 5374653 := by
    have : ⌊(365.25 : ℚ) * ((y : ℚ) + 4716)⌋ < 5374654 :=
      Int.floor_lt.mpr (by push_cast; nlinarith)
    omega
  have hf2l : (122 : ℤ) ≤ ⌊(30.6001 : ℚ) * ((m : ℚ) + 1)⌋ :=
    Int.le_floor.mpr (by push_cast; nlinarith)
  have hf2u : ⌊(30.6001 : ℚ) * ((m : ℚ) + 1)⌋ ≤ 459 := by
    have : ⌊(30.6001 : ℚ) * ((m : ℚ) + 1)⌋ < 460 :=
      Int.floor_lt.mpr (by push_cast; nlinarith)
    omega
  have hAl : (0 : ℤ) ≤ ⌊(y : ℚ) / 100⌋ := Int.floor_nonneg.mpr (by positivity)
  have hAu : ⌊(y : ℚ) / 100⌋ ≤ 99 := by
    have : ⌊(y : ℚ) / 100⌋ < 100 := Int.floor_lt.mpr (by push_cast; nlinarith)
    omega
  have hA4l : (0 : ℤ) ≤ ⌊((⌊(y : ℚ) / 100⌋ : ℤ) : ℚ) / 4⌋ := by
    apply Int.floor_nonneg.mpr
    have : (0 : ℚ) ≤ ((⌊(y : ℚ) / 100⌋ : ℤ) : ℚ) := by exact_mod_cast hAl
    positivity
  have hA4u : ⌊((⌊(y : ℚ) / 100⌋ : ℤ) : ℚ) / 4⌋ ≤ 24 := by
    have hq : ((⌊(y : ℚ) / 100⌋ : ℤ) : ℚ) ≤ 99 := by exact_mod_cast hAu
    have : ⌊((⌊(y : ℚ) / 100⌋ : ℤ) : ℚ) / 4⌋ < 25 := Int.floor_lt.mpr (by push_cast; nlinarith)
    omega
  have hf1lq : (1722519 : ℚ) ≤ ((⌊(365.25 : ℚ) * ((y : ℚ) + 4716)⌋ : ℤ) : ℚ) := by
    exact_mod_cast hf1l
  have hf1uq : (((⌊(365.25 : ℚ) * ((y : ℚ) + 4716)⌋ : ℤ) : ℚ)) ≤ 5374653 := by
    exact_mod_cast hf1u
  have hf2lq : (122 : ℚ) ≤ ((⌊(30.6001 : ℚ) * ((m : ℚ) + 1)⌋ : ℤ) : ℚ) := by
    exact_mod_cast hf2l
  have hf2uq : (((⌊(30.6001 : ℚ) * ((m : ℚ) + 1)⌋ : ℤ) : ℚ)) ≤ 459 := by
    exact_mod_cast hf2u
  have hAlq : (0 : ℚ) ≤ ((⌊(y : ℚ) / 100⌋ : ℤ) : ℚ) := by exact_mod_cast hAl
  have hAuq : (((⌊(y : ℚ) / 100⌋ : ℤ) : ℚ)) ≤ 99 := by exact_mod_cast hAu
  have hA4lq : (0 : ℚ) ≤ ((⌊((⌊(y : ℚ) / 100⌋ : ℤ) : ℚ) / 4⌋ : ℤ) : ℚ) := by
    exact_mod_cast hA4l
  have hA4uq : (((⌊((⌊(y : ℚ) / 100⌋ : ℤ) : ℚ) / 4⌋ : ℤ) : ℚ)) ≤ 24 := by
    exact_mod_cast hA4u
  split_ifs with hcond
  · constructor <;> push_cast <;> linarith
  · constructor <;> linarith

theorem calcT_mem {d : Date} (hv : d.isValid) : -20.001 ≤ calcT d ∧ calcT d ≤ 80.003 := by
  obtain ⟨hl, hh⟩ := julianday_bounds hv
  have hl' : (1721020 : ℝ) ≤ ((julianday d : ℚ) : ℝ) := by exact_mod_cast hl
  have hh' : ((julianday d : ℚ) : ℝ) ≤ 5373646 := by exact_mod_cast hh
  unfold calcT jday_to_jcentury
  constructor <;> nlinarith

/-! ## Bounds on the two passes of `_calc_time` at equatorial latitude -/

theorem clampLat_zero : clampLat 0 = 0 := by norm_num [clampLat]

theorem radians_zero_eq : radians 0 = 0 := by unfold radians; ring

theorem haArg_lat0 (D dep : ℝ) :
    haArg 0 D dep = -sin (radians dep) / cos (radians D) := by
  simp only [haArg]
  rw [radians_zero_eq, Real.cos_zero, Real.tan_zero, cos_radians_ninety_plus]
  ring

/-- At the equator, the hour-angle `acos` argument stays inside `[-1, 1]` for any
depression between 0 and 18 degrees, at every reachable Julian century. -/
theorem haArg_lat0_mem {t dep : ℝ} (h1 : -20.01 ≤ t) (h2 : t ≤ 80.01)
    (hd0 : 0 ≤ dep) (hd18 : dep ≤ 18) :
    -1 ≤ haArg 0 (sun_declination t) dep ∧ haArg 0 (sun_declination t) dep ≤ 1 := by
  have hc := cos_rad_declination_ge h1 h2
  rw [haArg_lat0]
  have hrd0 : 0 ≤ radians dep := by unfold radians; positivity
  have hrd1 : radians dep ≤ 0.3142 := by
    unfold radians
    nlinarith [Real.pi_lt_d6, Real.pi_pos]
  have hs : |sin (radians dep)| ≤ 0.3142 := (abs_sin_le_arg hrd0).trans hrd1
  have habs : |(-sin (radians dep)) / cos (radians (sun_declination t))| ≤ 1 := by
    rw [abs_div, abs_neg, abs_of_pos (by linarith : (0:ℝ) < cos (radians (sun_declination t))),
      div_le_one (by linarith)]
    linarith
  exact abs_le.mp habs

theorem degrees_arccos_mem (x : ℝ) : 0 ≤ degrees (arccos x) ∧ degrees (arccos x) ≤ 180 :=
  ⟨degrees_nonneg (arccos_nonneg x), degrees_le_180 (arccos_le_pi x)⟩

/-- The first-pass approximate time is within `[-20, 740]` minutes of `720 - 4·lon`. -/
theorem timeUTC1v_bound {d : Date} (hv : d.isValid) (lat lon : ℝ) :
    720 - 4 * lon - 20 ≤ timeUTC1v d lat lon ∧
      timeUTC1v d lat lon ≤ 720 - 4 * lon + 740 := by
  obtain ⟨ht1, ht2⟩ := calcT_mem hv
  have heq := abs_le.mp (eq_of_time_abs_le (show -20.01 ≤ calcT d by linarith)
    (show calcT d ≤ 80.01 by linarith))
  have hdg := degrees_arccos_mem (pass1arg d lat)
  unfold timeUTC1v
  rw [degrees_neg]
  constructor <;> linarith

/-- The refined century stays within the reachable range for any longitude of
magnitude at most 10000 degrees. -/
theorem newtF_mem {d : Date} (hv : d.isValid) {lat lon : ℝ}
    (hlon1 : -10000 ≤ lon) (hlon2 : lon ≤ 10000) :
    -20.01 ≤ newtF d lat lon ∧ newtF d lat lon ≤ 80.01 := by
  obtain ⟨ht1, ht2⟩ := calcT_mem hv
  obtain ⟨hu1, hu2⟩ := timeUTC1v_bound hv lat lon
  unfold newtF
  rw [jcentury_round_trip]
  constructor <;> nlinarith

/-- The final fractional time for a nonnegative depression is within `[-740, 20]`
minutes of `720 - 4·lon`. -/
theorem timeUTC2v_bound_pos {d : Date} (hv : d.isValid) {lat lon dep : ℝ}
    (hdep : ¬(dep < 0)) (hlon1 : -10000 ≤ lon) (hlon2 : lon ≤ 10000) :
    720 - 4 * lon - 740 ≤ timeUTC2v d lat lon dep ∧
      timeUTC2v d lat lon dep ≤ 720 - 4 * lon + 20 := by
  obtain ⟨hn1, hn2⟩ := newtF_mem hv hlon1 hlon2
  have heq := abs_le.mp (eq_of_time_abs_le hn1 hn2)
  have hdg := degrees_arccos_mem (pass2arg d lat lon dep)
  unfold timeUTC2v
  rw [if_neg hdep]
  constructor <;> linarith

/-- When the adjusted hour exceeds 47 and the date can roll forward, the single
24-hour wrap is not enough and the `datetime` constructor rejects the result. -/
theorem normalizeTime_high_err {d : Date} {tu : ℝ} (d2 : Date) (hs : d.succD = some d2)
    (h : 47 < nh1 (tu / 60)) : normalizeTime d tu = .error .valueError := by
  simp only [normalizeTime]
  rw [if_pos (by omega : nh1 (tu / 60) > 23), hs]
  simp only []
  unfold mkDatetime
  rw [if_neg]
  rintro ⟨-, -, hh, -⟩
  omega

/-! ## Claim C1: the failure condition of the four event operations -/

/-- Counterexample to C1 as stated.  At date 2015-01-20, latitude 0, longitude
-10000 (a finite input), `dawn_utc` with the civil depression fails with the
`SolarError` — yet the hour-angle equation for the requested depression (6°) has a
real solution: its `acos` argument lies inside `[-1, 1]` both at local solar noon
and at the refined century.  The failure comes from the normalized hour (≈ 665)
overflowing the `datetime` constructor, not from the hour-angle equation. -/
theorem claim_C1_cex :
    dawn_utc ⟨6⟩ ⟨2015, 1, 20⟩ 0 (-10000) = .error solarErrorMsg ∧
    -1 ≤ haArg 0 (sun_declination (calcT ⟨2015, 1, 20⟩)) 6 ∧
    haArg 0 (sun_declination (calcT ⟨2015, 1, 20⟩)) 6 ≤ 1 ∧
    -1 ≤ haArg 0 (sun_declination (newtF ⟨2015, 1, 20⟩ 0 (-10000))) 6 ∧
    haArg 0 (sun_declination (newtF ⟨2015, 1, 20⟩ 0 (-10000))) 6 ≤ 1 := by
  have hv : (⟨2015, 1, 20⟩ : Date).isValid := by decide
  obtain ⟨ht1, ht2⟩ := calcT_mem hv
  have ht1' : (-20.01 : ℝ) ≤ calcT ⟨2015, 1, 20⟩ := by linarith
  have ht2' : calcT ⟨2015, 1, 20⟩ ≤ 80.01 := by linarith
  obtain ⟨hn1, hn2⟩ :=
    @newtF_mem ⟨2015, 1, 20⟩ hv 0 (-10000) (by norm_num) (by norm_num)
  have hp1 : -1 ≤ pass1arg ⟨2015, 1, 20⟩ 0 ∧ pass1arg ⟨2015, 1, 20⟩ 0 ≤ 1 := by
    simp only [pass1arg, clampLat_zero]
    exact haArg_lat0_mem ht1' ht2' (by norm_num) (by norm_num)
  have hp2 : -1 ≤ pass2arg ⟨2015, 1, 20⟩ 0 (-10000) 6 ∧
      pass2arg ⟨2015, 1, 20⟩ 0 (-10000) 6 ≤ 1 := by
    simp only [pass2arg, clampLat_zero]
    rw [if_neg (by norm_num : ¬((6 : ℝ) < 0))]
    exact haArg_lat0_mem hn1 hn2 (by norm_num) (by norm_num)
  obtain ⟨hu1, hu2⟩ :=
    @timeUTC2v_bound_pos ⟨2015, 1, 20⟩ hv 0 (-10000) 6 (by norm_num) (by norm_num) (by norm_num)
  have hw := nh1_window (timeUTC2v ⟨2015, 1, 20⟩ 0 (-10000) 6 / 60)
  have h47 : 47 < nh1 (timeUTC2v ⟨2015, 1, 20⟩ 0 (-10000) 6 / 60) := by
    have hr : (47 : ℝ) < (nh1 (timeUTC2v ⟨2015, 1, 20⟩ 0 (-10000) 6 / 60) : ℝ) := by
      have := hw.1
      nlinarith
    exact_mod_cast hr
  have hcalc : calc_time ⟨2015, 1, 20⟩ 0 (-10000) 6 = .error .valueError := by
    rw [calc_time_eq, if_pos hp1, if_pos hp2]
    exact normalizeTime_high_err ⟨2015, 1, 21⟩ (by decide) h47
  refine ⟨?_, ?_, ?_, ?_, ?_⟩
  · rw [dawn_utc]
    simp only []
    rw [hcalc]
  · exact (haArg_lat0_mem ht1' ht2' (by norm_num) (by norm_num)).1
  · exact (haArg_lat0_mem ht1' ht2' (by norm_num) (by norm_num)).2
  · exact (haArg_lat0_mem hn1 hn2 (by norm_num) (by norm_num)).1
  · exact (haArg_lat0_mem hn1 hn2 (by norm_num) (by norm_num)).2

theorem calc_time_ok_iff (d : Date) (lat lon dep : ℝ) :
    (∃ dt, calc_time d lat lon dep = .ok dt) ↔
      (-1 ≤ pass1arg d lat ∧ pass1arg d lat ≤ 1 ∧
       -1 ≤ pass2arg d lat lon dep ∧ pass2arg d lat lon dep ≤ 1 ∧
       ∃ dt, normalizeTime d (timeUTC2v d lat lon dep) = .ok dt) := by
  rw [calc_time_eq]
  by_cases h1 : -1 ≤ pass1arg d lat ∧ pass1arg d lat ≤ 1
  · rw [if_pos h1]
    by_cases h2 : -1 ≤ pass2arg d lat lon dep ∧ pass2arg d lat lon dep ≤ 1
    · rw [if_pos h2]
      constructor
      · rintro ⟨dt, hdt⟩
        exact ⟨h1.1, h1.2, h2.1, h2.2, dt, hdt⟩
      · rintro ⟨-, -, -, -, dt, hdt⟩
        exact ⟨dt, hdt⟩
    · rw [if_neg h2]
      constructor
      · rintro ⟨dt, hdt⟩
        exact Except.noConfusion hdt
      · rintro ⟨-, -, a, b, -⟩
        exact absurd ⟨a, b⟩ h2
  · rw [if_neg h1]
    constructor
    · rintro ⟨dt, hdt⟩
      exact Except.noConfusion hdt
    · rintro ⟨a, b, -⟩
      exact absurd ⟨a, b⟩ h1

theorem dawn_err_iff (s : SolarTime) (d : Date) (lat lon : ℝ) :
    dawn_utc s d lat lon = .error solarErrorMsg ↔
      ∀ v, calc_time d lat lon s.depression ≠ .ok v := by
  cases h : calc_time d lat lon s.depression with
  | ok v =>
    have hd : dawn_utc s d lat lon = .ok v := by rw [dawn_utc, h]
    rw [hd]
    exact ⟨fun hh => Except.noConfusion hh, fun hall => (hall v rfl).elim⟩
  | error e =>
    have hd : dawn_utc s d lat lon = .error solarErrorMsg := by rw [dawn_utc, h]
    rw [hd]
    exact ⟨fun _ v hv => Except.noConfusion hv, fun _ => rfl⟩

theorem sunrise_err_iff (s : SolarTime) (d : Date) (lat lon : ℝ) :
    sunrise_utc s d lat lon = .error solarErrorMsg ↔
      ∀ v, calc_time d lat lon 0.833 ≠ .ok v := by
  cases h : calc_time d lat lon 0.833 with
  | ok v =>
    have hd : sunrise_utc s d lat lon = .ok v := by rw [sunrise_utc, h]
    rw [hd]
    exact ⟨fun hh => Except.noConfusion hh, fun hall => (hall v rfl).elim⟩
  | error e =>
    have hd : sunrise_utc s d lat lon = .error solarErrorMsg := by rw [sunrise_utc, h]
    rw [hd]
    exact ⟨fun _ v hv => Except.noConfusion hv, fun _ => rfl⟩

theorem sunset_err_iff (s : SolarTime) (d : Date) (lat lon : ℝ) :
    sunset_utc s d lat lon = .error solarErrorMsg ↔
      ∀ v, calc_time d lat lon (-0.833) ≠ .ok v := by
  cases h : calc_time d lat lon (-0.833) with
  | ok v =>
    have hd : sunset_utc s d lat lon = .ok v := by rw [sunset_utc, h]
    rw [hd]
    exact ⟨fun hh => Except.noConfusion hh, fun hall => (hall v rfl).elim⟩
  | error e =>
    have hd : sunset_utc s d lat lon = .error solarErrorMsg := by rw [sunset_utc, h]
    rw [hd]
    exact ⟨fun _ v hv => Except.noConfusion hv, fun _ => rfl⟩

theorem dusk_err_iff (s : SolarTime) (d : Date) (lat lon : ℝ) :
    dusk_utc s d lat lon = .error solarErrorMsg ↔
      ∀ v, calc_time d lat lon (-s.depression) ≠ .ok v := by
  cases h : calc_time d lat lon (-s.depression) with
  | ok v =>
    have hd : dusk_utc s d lat lon = .ok v := by rw [dusk_utc, h]
    rw [hd]
    exact ⟨fun hh => Except.noConfusion hh, fun hall => (hall v rfl).elim⟩
  | error e =>
    have hd : dusk_utc s d lat lon = .error solarErrorMsg := by rw [dusk_utc, h]
    rw [hd]
    exact ⟨fun _ v hv => Except.noConfusion hv, fun _ => rfl⟩

/-- C1 (amended and proved).  An event operation fails with the `SolarError` if and
only if some step of its pipeline fails: the first-pass `acos` argument (computed
with the fixed depression 0.833) leaves `[-1, 1]`, or the second-pass `acos`
argument (computed with the operation's requested depression, in absolute value)
leaves `[-1, 1]`, or the normalized result is not a representable `datetime`.
(The original claim — failure iff the requested depression's hour-angle equation
has no solution — is refuted by the counterexample, where the requested equation is
solvable and the operation still fails.) -/
theorem claim_C1 (s : SolarTime) (d : Date) (lat lon : ℝ) :
    (dawn_utc s d lat lon = .error solarErrorMsg ↔
      ¬(-1 ≤ pass1arg d lat ∧ pass1arg d lat ≤ 1 ∧
        -1 ≤ pass2arg d lat lon s.depression ∧ pass2arg d lat lon s.depression ≤ 1 ∧
        ∃ dt, normalizeTime d (timeUTC2v d lat lon s.depression) = .ok dt)) ∧
    (sunrise_utc s d lat lon = .error solarErrorMsg ↔
      ¬(-1 ≤ pass1arg d lat ∧ pass1arg d lat ≤ 1 ∧
        -1 ≤ pass2arg d lat lon 0.833 ∧ pass2arg d lat lon 0.833 ≤ 1 ∧
        ∃ dt, normalizeTime d (timeUTC2v d lat lon 0.833) = .ok dt)) ∧
    (sunset_utc s d lat lon = .error solarErrorMsg ↔
      ¬(-1 ≤ pass1arg d lat ∧ pass1arg d lat ≤ 1 ∧
        -1 ≤ pass2arg d lat lon (-0.833) ∧ pass2arg d lat lon (-0.833) ≤ 1 ∧
        ∃ dt, normalizeTime d (timeUTC2v d lat lon (-0.833)) = .ok dt)) ∧
    (dusk_utc s d lat lon = .error solarErrorMsg ↔
      ¬(-1 ≤ pass1arg d lat ∧ pass1arg d lat ≤ 1 ∧
        -1 ≤ pass2arg d lat lon (-s.depression) ∧ pass2arg d lat lon (-s.depression) ≤ 1 ∧
        ∃ dt, normalizeTime d (timeUTC2v d lat lon (-s.depression)) = .ok dt)) := by
  refine ⟨?_, ?_, ?_, ?_⟩
  · rw [dawn_err_iff, ← not_exists, calc_time_ok_iff]
  · rw [sunrise_err_iff, ← not_exists, calc_time_ok_iff]
  · rw [sunset_err_iff, ← not_exists, calc_time_ok_iff]
  · rw [dusk_err_iff, ← not_exists, calc_time_ok_iff]

/-! ## Claim C10: totality of solar noon -/

theorem solar_noon_eq (st : SolarTime) (d : Date) (lon : ℝ) :
    solar_noon_utc st d lon = normalizeTime d (noonTimeUTC d lon) := rfl

theorem noon_century_mem {d : Date} (hv : d.isValid) (lon : ℝ)
    (h1 : -750 ≤ lon) (h2 : lon ≤ 750) :
    -20.01 ≤ jday_to_jcentury (((julianday d : ℚ) : ℝ) + 0.5 + -lon / 360.0) ∧
      jday_to_jcentury (((julianday d : ℚ) : ℝ) + 0.5 + -lon / 360.0) ≤ 80.01 := by
  obtain ⟨hl, hh⟩ := julianday_bounds hv
  have hl' : (1721020 : ℝ) ≤ ((julianday d : ℚ) : ℝ) := by exact_mod_cast hl
  have hh' : ((julianday d : ℚ) : ℝ) ≤ 5373646 := by exact_mod_cast hh
  unfold jday_to_jcentury
  constructor <;> nlinarith

theorem noonTimeUTC_bound {d : Date} (hv : d.isValid) (lon : ℝ)
    (h1 : -750 ≤ lon) (h2 : lon ≤ 750) :
    700 - 4 * lon ≤ noonTimeUTC d lon ∧ noonTimeUTC d lon ≤ 740 - 4 * lon := by
  have hc := noon_century_mem hv lon h1 h2
  have heq := abs_le.mp (eq_of_time_abs_le hc.1 hc.2)
  unfold noonTimeUTC
  constructor <;> linarith

/-- Any fractional time of at least 2940 minutes (49 hours) defeats the single
24-hour rollover and makes the `datetime` constructor raise. -/
theorem normalizeTime_err_of_tu {d : Date} (d2 : Date) (hs : d.succD = some d2)
    {tu : ℝ} (h : 2940 ≤ tu) : normalizeTime d tu = .error .valueError := by
  apply normalizeTime_high_err d2 hs
  have hw := nh1_window (tu / 60)
  have hr : (47 : ℝ) < (nh1 (tu / 60) : ℝ) := by nlinarith [hw.1]
  exact_mod_cast hr

/-- At longitude -750 the solar-noon pipeline computes roughly 62 hours past
midnight and the constructor rejects it; no instant is returned. -/
theorem noon_neg750_err :
    solar_noon_utc ⟨6⟩ ⟨2015, 1, 20⟩ (-750) = .error .valueError := by
  have hv : (⟨2015, 1, 20⟩ : Date).isValid := by decide
  obtain ⟨hb1, hb2⟩ := noonTimeUTC_bound hv (-750) (by norm_num) (by norm_num)
  rw [solar_noon_eq]
  exact normalizeTime_err_of_tu ⟨2015, 1, 21⟩ (by decide) (by linarith)

/-- Counterexample to C10 as stated: at the valid date 2015-01-20 and the finite
longitude -750, `solar_noon_utc` does not return an instant — it raises
`ValueError` from the `datetime` constructor (unwrapped: the operation has no
`try`). -/
theorem claim_C10_cex :
    solar_noon_utc ⟨6⟩ ⟨2015, 1, 20⟩ (-750) = .error .valueError :=
  noon_neg750_err

/-- C10 (amended and proved).  `solar_noon_utc` returns an instant for every valid
date strictly inside the calendar range and every longitude in `[-180, 180]`;
its pipeline contains no `acos`, so the `SolarPositionUndefined` condition cannot
occur for solar noon at any latitude.  (The original unbounded-longitude claim is
refuted by the counterexample: longitudes beyond the one-day rollover window make
the `datetime` constructor raise.) -/
theorem claim_C10 (st : SolarTime) (d : Date) (lon : ℝ) (hv : d.isValid)
    (hmin : d ≠ ⟨1, 1, 1⟩) (hmax : d ≠ ⟨9999, 12, 31⟩)
    (h1 : -180 ≤ lon) (h2 : lon ≤ 180) :
    ∃ dt, solar_noon_utc st d lon = .ok dt := by
  rw [solar_noon_eq]
  obtain ⟨hb1, hb2⟩ := noonTimeUTC_bound hv lon (by linarith) (by linarith)
  have hw := nh1_window (noonTimeUTC d lon / 60)
  have hlo : -24 ≤ nh1 (noonTimeUTC d lon / 60) := by
    have hr : (-24 : ℝ) ≤ (nh1 (noonTimeUTC d lon / 60) : ℝ) := by nlinarith [hw.1]
    exact_mod_cast hr
  have hhi : nh1 (noonTimeUTC d lon / 60) ≤ 47 := by
    have hr : (nh1 (noonTimeUTC d lon / 60) : ℝ) ≤ 47 := by nlinarith [hw.2]
    exact_mod_cast hr
  obtain ⟨dt, hdt, -⟩ := normalizeTime_ok_of_window hv hmin hmax hlo hhi
  exact ⟨dt, hdt⟩

/-- Witness for C10 at 2015-01-20, longitude 0. -/
theorem claim_C10_witness :
    (⟨2015, 1, 20⟩ : Date).isValid ∧ (⟨2015, 1, 20⟩ : Date) ≠ ⟨1, 1, 1⟩ ∧
    (⟨2015, 1, 20⟩ : Date) ≠ ⟨9999, 12, 31⟩ ∧ (-180 : ℝ) ≤ 0 ∧ (0 : ℝ) ≤ 180 ∧
    ∃ dt, solar_noon_utc ⟨6⟩ ⟨2015, 1, 20⟩ 0 = .ok dt :=
  ⟨by decide, by decide, by decide, by norm_num, by norm_num,
    claim_C10 ⟨6⟩ ⟨2015, 1, 20⟩ 0 (by decide) (by decide) (by decide)
      (by norm_num) (by norm_num)⟩

/-- Counterexample to C5 as stated: at date 2015-01-20, longitude -750, the
computed solar-noon hour exits `[0, 23]` (it is about 62), yet no result with a
±1-day-shifted date and a wrapped hour is returned — the operation fails instead. -/
theorem claim_C5_cex :
    23 < nh1 (noonTimeUTC ⟨2015, 1, 20⟩ (-750) / 60) ∧
    solar_noon_utc ⟨6⟩ ⟨2015, 1, 20⟩ (-750) = .error .valueError := by
  have hv : (⟨2015, 1, 20⟩ : Date).isValid := by decide
  obtain ⟨hb1, hb2⟩ := noonTimeUTC_bound hv (-750) (by norm_num) (by norm_num)
  have hw := nh1_window (noonTimeUTC ⟨2015, 1, 20⟩ (-750) / 60)
  refine ⟨?_, noon_neg750_err⟩
  have hr : (23 : ℝ) < (nh1 (noonTimeUTC ⟨2015, 1, 20⟩ (-750) / 60) : ℝ) := by
    nlinarith [hw.1]
  exact_mod_cast hr

/-! ## Claim C2: which depression each pass of `_calc_time` uses -/

/-- Counterexample to C2 as stated.  With the astronomical depression (18°), at
date 2015-01-20, latitude 0: the first pass of `_calc_time` produces an hour angle
`h` (the `hour_angle` call with the fixed depression 0.833 of source line 351), and
`cos h` does NOT equal the right-hand side of the hour-angle equation for the
operation's own depression 18° at local solar noon — so the first pass does not
evaluate the equation at the requested depression. -/
theorem claim_C2_cex :
    clampLat 0 = 0 ∧
    ∃ h, hour_angle (clampLat 0) (sun_declination (calcT ⟨2015, 1, 20⟩)) 0.833 = .ok h ∧
      cos h ≠ haArg (clampLat 0) (sun_declination (calcT ⟨2015, 1, 20⟩)) 18 := by
  have hv : (⟨2015, 1, 20⟩ : Date).isValid := by decide
  obtain ⟨ht1, ht2⟩ := calcT_mem hv
  have ht1' : (-20.01 : ℝ) ≤ calcT ⟨2015, 1, 20⟩ := by linarith
  have ht2' : calcT ⟨2015, 1, 20⟩ ≤ 80.01 := by linarith
  have hb1 := haArg_lat0_mem ht1' ht2' (by norm_num : (0:ℝ) ≤ 0.833) (by norm_num)
  have hc := cos_rad_declination_ge ht1' ht2'
  have hπ1 : (3.141592 : ℝ) < π := pi_gt_d6
  have hπ2 : π < 3.141593 := pi_lt_d6
  refine ⟨clampLat_zero, arccos (haArg 0 (sun_declination (calcT ⟨2015, 1, 20⟩)) 0.833), ?_, ?_⟩
  · rw [clampLat_zero]
    exact hour_angle_ok hb1
  · rw [clampLat_zero, Real.cos_arccos hb1.1 hb1.2]
    rw [haArg_lat0, haArg_lat0]
    have hmono : sin (radians 0.833) < sin (radians 18) := by
      apply Real.sin_lt_sin_of_lt_of_le_pi_div_two
      · unfold radians
        nlinarith
      · unfold radians
        nlinarith
      · unfold radians
        nlinarith
    intro heq
    rw [div_eq_div_iff (by linarith) (by linarith)] at heq
    nlinarith

/-- C2 (amended and proved).  `_calc_time` coincides, at every input, with the
spec-modelled two-pass pipeline in which the FIRST pass solves the hour-angle
equation with the fixed depression 0.833 at local solar noon and only the SECOND
pass solves it with the operation's own depression (in absolute value, signed for
the post-noon root) at the refined Julian century.  (The original claim — that the
first pass already uses the operation's own depression — is refuted by the
counterexample.) -/
theorem claim_C2 (d : Date) (lat lon dep : ℝ) :
    calc_time d lat lon dep = calcTimeSpecC2 d lat lon dep := by
  rw [calc_time_eq]
  simp only [calcTimeSpecC2, pass1arg, pass2arg, timeUTC2v, newtF, timeUTC1v, calcT]
  have hnewt : jcentury_to_jday (jday_to_jcentury ((julianday d : ℚ) : ℝ)) +
      (720.0 + 4.0 * (-lon - degrees (-arccos
        (haArg (clampLat lat)
          (sun_declination (jday_to_jcentury ((julianday d : ℚ) : ℝ))) 0.833)))
        - eq_of_time (jday_to_jcentury ((julianday d : ℚ) : ℝ))) / 1440.0 =
      jcentury_to_jday (jday_to_jcentury ((julianday d : ℚ) : ℝ)) +
      (720.0 - 4.0 * lon + 4.0 * degrees (arccos
        (haArg (clampLat lat)
          (sun_declination (jday_to_jcentury ((julianday d : ℚ) : ℝ))) 0.833))
        - eq_of_time (jday_to_jcentury ((julianday d : ℚ) : ℝ))) / 1440.0 := by
    rw [degrees_neg]
    ring
  rw [hnewt]
  have hfin : ∀ Y E : ℝ, 720.0 + 4.0 * (-lon - degrees Y) - E =
      720.0 - 4.0 * lon - 4.0 * degrees Y - E := by
    intro Y E
    ring
  rw [hfin]
